import Mathlib

/-!
# ksu_susfs: the command-line front end of susfs (`jni/main.c`)

A shallow embedding of `main.c`.  The program is one `main` that parses `argv`,
fills one fixed-layout record and hands it to the kernel through `prctl`.

Conventions of the embedding:

* a C string, and every `char` buffer, is a `List Nat` of bytes; the string held
  by a buffer is what precedes its first zero byte (`cstr`);
* C integers are `Int`; a conversion between two C integer types is written
  with `to_unsigned`/`to_signed` at the place where the source converts.  The
  data model is LP64 as on Android arm64: `int` and `unsigned int` have 32
  bits, `long`, `unsigned long`, `long long` have 64 bits, and in
  `struct stat` the field `st_nlink` is an `unsigned int`, `st_blksize` an
  `int`, the other fields read here 64 bits wide;
* everything outside the process (the caller's uid, `stat`, `realpath`, the
  kernel behind `prctl`, `mknod`, `fopen`, `system`, the content of
  uninitialised stack memory) is a field of `World`;
* a run of `main` yields the value it returns (or passes to `exit`) and the
  list of its externally visible actions, in program order.
-/

namespace Susfs

/-! ## Constants -/

def KERNEL_SU_OPTION : Nat := 0xDEADBEEF

def CMD_SUSFS_ADD_SUS_PATH : Nat := 0x55550
def CMD_SUSFS_ADD_SUS_MOUNT : Nat := 0x55560
def CMD_SUSFS_ADD_SUS_KSTAT : Nat := 0x55570
def CMD_SUSFS_UPDATE_SUS_KSTAT : Nat := 0x55571
def CMD_SUSFS_ADD_SUS_KSTAT_STATICALLY : Nat := 0x55572
def CMD_SUSFS_ADD_TRY_UMOUNT : Nat := 0x55580
def CMD_SUSFS_SET_UNAME : Nat := 0x55590
def CMD_SUSFS_ENABLE_LOG : Nat := 0x555a0
def CMD_SUSFS_SUS_SU : Nat := 0x60000

def SUSFS_MAX_LEN_PATHNAME : Nat := 256
def NEW_UTS_LEN : Nat := 64

/-- The file type bits of a character device, `S_IFCHR` of `sys/stat.h`. -/
def S_IFCHR : Nat := 0o020000

/-! ## C strings and integers -/

/-- The bytes of a string literal of the source (all of them are ASCII). -/
def lit (s : String) : List Nat := s.toList.map Char.toNat

def TAG : List Nat := lit "ksu_susfs"
def SUS_SU_BIN_PATH : List Nat := lit "/data/adb/ksu/bin/sus_su"
def SUS_SU_CONF_FILE_PATH : List Nat := lit "/data/adb/ksu/bin/sus_su_drv_path"

/-- The C string stored at the start of a byte sequence: the bytes before the
first zero byte. -/
def cstr (m : List Nat) : List Nat := m.takeWhile (fun b => b != 0)

/-- The byte a `char*` points at; the terminator when the string is used up. -/
def deref (p : List Nat) : Nat := p.headD 0

/-- Model of `strcmp`: zero exactly when the two C strings are equal (`main`
only tests the result against zero). -/
def strcmp (a b : List Nat) : Int := if cstr a = cstr b then 0 else 1

/-- Model of `strncpy(dst, src, n)`: the first `n` bytes of `dst` become the
string at `src` cut to `n` bytes and padded with zero bytes up to `n`; the
bytes of `dst` from `n` on keep their content. -/
def strncpy (dst src : List Nat) (n : Nat) : List Nat :=
  ((cstr src).take n ++ List.replicate (n - (cstr src).length) 0).take dst.length
    ++ dst.drop n

/-- Conversion of a value to an unsigned C type of `w` bits. -/
def to_unsigned (w : Nat) (x : Int) : Int := x % 2 ^ w

/-- Conversion of a value to a signed C type of `w` bits (two's complement). -/
def to_signed (w : Nat) (x : Int) : Int := (x + 2 ^ (w - 1)) % 2 ^ w - 2 ^ (w - 1)

def ULONG_MAX : Int := 2 ^ 64 - 1
def LONG_MAX : Int := 2 ^ 63 - 1
def LONG_MIN : Int := -(2 ^ 63)

/-- Model of `isdigit` in the C locale. -/
def isdigit (c : Nat) : Bool := decide (48 ≤ c) && decide (c ≤ 57)

/-- Model of `isspace` in the C locale: space, and `\t \n \v \f \r`. -/
def isspace (c : Nat) : Bool := c == 32 || (decide (9 ≤ c) && decide (c ≤ 13))

/-- The run of decimal digits at the start of `s`: how many there are, their
value continuing from `acc`, and the rest of the string. -/
def scan_digits : List Nat → Nat → Nat → Nat × Nat × List Nat
  | [], acc, n => (n, acc, [])
  | c :: cs, acc, n =>
    if isdigit c then scan_digits cs (acc * 10 + (c - 48)) (n + 1) else (n, acc, c :: cs)

/-- The subject sequence of `strtol`/`strtoul` in base 10: white space is
skipped, then an optional sign, then digits.  Gives the sign, the number of
digits, their value and the pointer after them. -/
def scan_number (s : List Nat) : Bool × Nat × Nat × List Nat :=
  let t := s.dropWhile isspace
  match t with
  | 45 :: r => (true, scan_digits r 0 0)
  | 43 :: r => (false, scan_digits r 0 0)
  | _ => (false, scan_digits t 0 0)

/-- Model of `strtoul(s, &endptr, 10)`: the value and `endptr`.  Without a
digit the value is 0 and `endptr` is `s`; a value above `ULONG_MAX` gives
`ULONG_MAX`; a minus sign negates within `unsigned long`. -/
def strtoul (s : List Nat) : Int × List Nat :=
  match scan_number s with
  | (neg, n, v, rest) =>
    if n = 0 then (0, s)
    else if ULONG_MAX < (v : Int) then (ULONG_MAX, rest)
    else if neg then (to_unsigned 64 (-(v : Int)), rest)
    else ((v : Int), rest)

/-- Model of `strtol(s, &endptr, 10)`: the value and `endptr`.  Without a
digit the value is 0 and `endptr` is `s`; a value outside `long` gives
`LONG_MAX` or `LONG_MIN`. -/
def strtol (s : List Nat) : Int × List Nat :=
  match scan_number s with
  | (neg, n, v, rest) =>
    if n = 0 then (0, s)
    else if neg then (if -(v : Int) < LONG_MIN then (LONG_MIN, rest) else (-(v : Int), rest))
    else if LONG_MAX < (v : Int) then (LONG_MAX, rest)
    else ((v : Int), rest)

/-- Model of `atoi`: the value of `strtol` in base 10 as an `int`. -/
def atoi (s : List Nat) : Int := to_signed 32 (strtol s).1

/-- The function `isNumeric` of the source: 1 when the string is not empty and
all its characters are digits, else 0. -/
def isNumeric (str : List Nat) : Int :=
  if deref str = 0 then 0
  else if (cstr str).all isdigit then 1 else 0

/-! ## Records passed to the kernel -/

structure st_susfs_sus_path where
  target_ino : Int
  target_pathname : List Nat
  deriving DecidableEq, Repr

structure st_susfs_sus_mount where
  target_pathname : List Nat
  target_dev : Int
  deriving DecidableEq, Repr

structure st_susfs_sus_kstat where
  is_statically : Bool
  target_ino : Int
  target_pathname : List Nat
  spoofed_ino : Int
  spoofed_dev : Int
  spoofed_nlink : Int
  spoofed_size : Int
  spoofed_atime_tv_sec : Int
  spoofed_mtime_tv_sec : Int
  spoofed_ctime_tv_sec : Int
  spoofed_atime_tv_nsec : Int
  spoofed_mtime_tv_nsec : Int
  spoofed_ctime_tv_nsec : Int
  spoofed_blksize : Int
  spoofed_blocks : Int
  deriving DecidableEq, Repr

structure st_susfs_try_umount where
  target_pathname : List Nat
  mnt_mode : Int
  deriving DecidableEq, Repr

structure st_susfs_uname where
  release : List Nat
  version : List Nat
  deriving DecidableEq, Repr

structure st_sus_su where
  enabled : Bool
  drv_path : List Nat
  maj_dev_num : Int
  deriving DecidableEq, Repr

/-- The fields of `struct stat` that `main` reads or overrides. -/
structure Stat where
  st_ino : Int
  st_dev : Int
  st_nlink : Int
  st_size : Int
  st_atime : Int
  st_mtime : Int
  st_ctime : Int
  st_atime_nsec : Int
  st_mtime_nsec : Int
  st_ctime_nsec : Int
  st_blksize : Int
  st_blocks : Int
  deriving DecidableEq, Repr

/-- A device number as built by `makedev(major, minor)`. -/
structure dev_t where
  major : Int
  minor : Int
  deriving DecidableEq, Repr

def makedev (major minor : Int) : dev_t := ⟨major, minor⟩

/-- The third argument of `prctl`: a pointer to one of the records, or for
`enable_log` the integer itself. -/
inductive Arg where
  | sus_path (info : st_susfs_sus_path)
  | sus_mount (info : st_susfs_sus_mount)
  | sus_kstat (info : st_susfs_sus_kstat)
  | try_umount (info : st_susfs_try_umount)
  | uname (info : st_susfs_uname)
  | value (v : Int)
  | sus_su (info : st_sus_su)
  deriving DecidableEq, Repr

/-! ## The world outside the process -/

structure World where
  /-- Result of `getuid()`. -/
  uid : Nat
  /-- Result of `stat(path, &sb)`: `none` when it fails, else the buffer it fills. -/
  stat : List Nat → Option Stat
  /-- Result of `realpath(path, buf)`: `none` for `NULL`. -/
  realpath : List Nat → Option (List Nat)
  /-- What `prctl(option, cmd, arg, NULL, &error)` leaves in `error`, which holds
  -1 before the call: the status reported by the kernel. -/
  prctl : Nat → Nat → Arg → Int
  /-- The `st_sus_su` record as the kernel leaves it after `CMD_SUSFS_SUS_SU`. -/
  kernel_sus_su : st_sus_su → st_sus_su
  /-- Result of `mknod(path, mode, dev)`. -/
  mknod : List Nat → Nat → dev_t → Int
  /-- Whether `fopen(path, mode)` gives a stream. -/
  fopen : List Nat → List Nat → Bool
  /-- Result of `system(command)`. -/
  system : List Nat → Int
  /-- Content of uninitialised stack memory: bytes and integers. -/
  stack_bytes : Nat → Nat
  stack_int : Int
  stack_bool : Bool

/-- An uninitialised `char` array of `n` bytes. -/
def uninit_bytes (w : World) (n : Nat) : List Nat := (List.range n).map w.stack_bytes

/-- What the process does to the outside, one constructor per library call. -/
inductive Event where
  /-- One `printf`: the text written to standard output. -/
  | print (text : List Nat)
  /-- The call `print_help()`: the fixed usage text. -/
  | usage
  | perror (s : List Nat)
  | stat (path : List Nat)
  | realpath (path : List Nat)
  | prctl (option cmd : Nat) (arg : Arg)
  | mknod (path : List Nat) (mode : Nat) (dev : dev_t)
  | fopen (path mode : List Nat)
  | fputs (text : List Nat)
  | fclose
  | system (command : List Nat)
  deriving DecidableEq, Repr

/-- Outcome of a run: the value `main` returns (or hands to `exit`) and what it
did, in order. -/
structure Run where
  exit : Int
  trace : List Event
  deriving DecidableEq, Repr

/-- The control-channel submissions of a run: opcode and record, in order. -/
def submissions (r : Run) : List (Nat × Arg) :=
  r.trace.filterMap fun e =>
    match e with
    | .prctl _ cmd arg => some (cmd, arg)
    | _ => none

/-- The paths a run queried with `stat`. -/
def stat_queries (r : Run) : List (List Nat) :=
  r.trace.filterMap fun e =>
    match e with
    | .stat p => some p
    | _ => none

/-! ## Macros and helper functions of the source -/

/-- The macro `log(fmt, ...)`: `printf(TAG ":" fmt, ...)`, with the text already
formatted. -/
def log (text : List Nat) : Event := .print (TAG ++ lit ":" ++ text)

/-- Rendering of `0x%x`. -/
def hex (n : Nat) : List Nat := lit "0x" ++ (Nat.toDigits 16 n).map Char.toNat

/-- The macro `PRT_MSG_IF_OPERATION_NOT_SUPPORTED(x, cmd)`. -/
def PRT_MSG_IF_OPERATION_NOT_SUPPORTED (x : Int) (cmd : Nat) : List Event :=
  if x = -1 then
    [log (lit "[-] CMD: '" ++ hex cmd ++
      lit "', SUSFS operation not supported, please enable it in kernel\n")]
  else []

/-- The function `get_file_stat`: `none` stands for the return value 1 (the
buffer is not filled), `some sb` for 0 with the buffer `stat` filled. -/
def get_file_stat (w : World) (pathname : List Nat) : Option Stat := w.stat (cstr pathname)

def copy_stat_to_sus_kstat (info : st_susfs_sus_kstat) (sb : Stat) : st_susfs_sus_kstat :=
  { info with
    spoofed_ino := sb.st_ino
    spoofed_dev := sb.st_dev
    spoofed_nlink := sb.st_nlink
    spoofed_size := sb.st_size
    spoofed_atime_tv_sec := sb.st_atime
    spoofed_mtime_tv_sec := sb.st_mtime
    spoofed_ctime_tv_sec := sb.st_ctime
    spoofed_atime_tv_nsec := sb.st_atime_nsec
    spoofed_mtime_tv_nsec := sb.st_mtime_nsec
    spoofed_ctime_tv_nsec := sb.st_ctime_nsec
    -- `int` to `unsigned long`
    spoofed_blksize := to_unsigned 64 sb.st_blksize
    -- `long` to `unsigned long long`
    spoofed_blocks := to_unsigned 64 sb.st_blocks }

/-- The call `print_help()`. -/
def print_help : List Event := [.usage]

/-- The `i`-th entry of `argv` (read only where `argc` allows it). -/
def arg (argv : List (List Nat)) (i : Nat) : List Nat := argv.getD i []

/-- The constant `PATH_MAX` of `limits.h`. -/
def PATH_MAX : Nat := 4096

/-- The `n` bytes of uninitialised stack memory from the index `i` on. -/
def stack_from (w : World) : Nat → Nat → List Nat
  | _, 0 => []
  | i, n + 1 => w.stack_bytes i :: stack_from w (i + 1) n

/-- The string a `char*` to a field of a record on the stack points at: the
bytes of the field before its first zero byte and, when the field holds no
zero byte, on through the memory after the field, which starts at the stack
index `next`.  No more than `PATH_MAX` bytes past the field are read. -/
def string_at (w : World) (field : List Nat) (next : Nat) : List Nat :=
  cstr (field ++ stack_from w next PATH_MAX)

/-- Model of the call `realpath(path, buf)`: `NULL`, here `none`, for a string
of `PATH_MAX` bytes or more (`ENAMETOOLONG`), else the answer of the world. -/
def realpath_result (w : World) (path : List Nat) : Option (List Nat) :=
  if PATH_MAX ≤ path.length then none else w.realpath path

/-! ## The commands of `main` -/

/-- The function `pre_check`: `some` run when the process exits here. -/
def pre_check (w : World) : Option Run :=
  if w.uid ≠ 0 then some ⟨1, [log (lit "[-] Must run as root\n")]⟩ else none

/-- The branch `add_sus_path` of `main`. -/
def add_sus_path (w : World) (argv : List (List Nat)) : Run :=
  -- struct st_susfs_sus_path info = {0};
  let info : st_susfs_sus_path := ⟨0, List.replicate SUSFS_MAX_LEN_PATHNAME 0⟩
  match get_file_stat w (arg argv 2) with
  | none =>
    ⟨1, [.stat (cstr (arg argv 2)),
         log (cstr info.target_pathname ++ lit " not found, skip adding its ino\n")]⟩
  | some sb =>
    let info := { info with target_ino := sb.st_ino }
    let info := { info with
      target_pathname := strncpy info.target_pathname (arg argv 2) (SUSFS_MAX_LEN_PATHNAME - 1) }
    let error := w.prctl KERNEL_SU_OPTION CMD_SUSFS_ADD_SUS_PATH (.sus_path info)
    ⟨error, [.stat (cstr (arg argv 2)),
             .prctl KERNEL_SU_OPTION CMD_SUSFS_ADD_SUS_PATH (.sus_path info)]
            ++ PRT_MSG_IF_OPERATION_NOT_SUPPORTED error CMD_SUSFS_ADD_SUS_PATH⟩

/-- The message `[-] Failed to get stat from path: '%s'\n`. -/
def failed_stat_msg (path : List Nat) : Event :=
  log (lit "[-] Failed to get stat from path: '" ++ cstr path ++ lit "'\n")

/-- The branch `add_sus_mount` of `main`. -/
def add_sus_mount (w : World) (argv : List (List Nat)) : Run :=
  -- struct st_susfs_sus_mount info;
  let info : st_susfs_sus_mount := ⟨uninit_bytes w SUSFS_MAX_LEN_PATHNAME, w.stack_int⟩
  let info := { info with
    target_pathname := strncpy info.target_pathname (arg argv 2) (SUSFS_MAX_LEN_PATHNAME - 1) }
  match get_file_stat w (arg argv 2) with
  | none => ⟨1, [.stat (cstr (arg argv 2)), failed_stat_msg (arg argv 2)]⟩
  | some sb =>
    let info := { info with target_dev := sb.st_dev }
    let error := w.prctl KERNEL_SU_OPTION CMD_SUSFS_ADD_SUS_MOUNT (.sus_mount info)
    ⟨error, [.stat (cstr (arg argv 2)),
             .prctl KERNEL_SU_OPTION CMD_SUSFS_ADD_SUS_MOUNT (.sus_mount info)]
            ++ PRT_MSG_IF_OPERATION_NOT_SUPPORTED error CMD_SUSFS_ADD_SUS_MOUNT⟩

/-- An uninitialised `struct st_susfs_sus_kstat`. -/
def uninit_sus_kstat (w : World) : st_susfs_sus_kstat :=
  { is_statically := w.stack_bool
    target_ino := w.stack_int
    target_pathname := uninit_bytes w SUSFS_MAX_LEN_PATHNAME
    spoofed_ino := w.stack_int
    spoofed_dev := w.stack_int
    spoofed_nlink := w.stack_int
    spoofed_size := w.stack_int
    spoofed_atime_tv_sec := w.stack_int
    spoofed_mtime_tv_sec := w.stack_int
    spoofed_ctime_tv_sec := w.stack_int
    spoofed_atime_tv_nsec := w.stack_int
    spoofed_mtime_tv_nsec := w.stack_int
    spoofed_ctime_tv_nsec := w.stack_int
    spoofed_blksize := w.stack_int
    spoofed_blocks := w.stack_int }

/-- One field block of `add_sus_kstat_statically`:

    if (strcmp(tok, "default")) {
        v = parse(tok, &endptr, 10);
        if (*endptr != '\0') { print_help(); return 1; }
        sb.field = v;
    }

`none` stands for the exit through `print_help(); return 1;`, and `store` does
the assignment together with the conversions on the way from the result of
`parse` through the local variable to the field of `sb`. -/
def field_block (tok : List Nat) (parse : List Nat → Int × List Nat)
    (store : Stat → Int → Stat) (sb : Stat) : Option Stat :=
  if strcmp tok (lit "default") ≠ 0 then
    if deref (parse tok).2 ≠ 0 then none
    else some (store sb (parse tok).1)
  else some sb

/-- The assignment `sb.st_ino = ino;`: `unsigned long` to `ino_t`. -/
def store_ino (sb : Stat) (v : Int) : Stat := { sb with st_ino := v }

/-- The assignment `sb.st_dev = dev;`: `unsigned long` to `dev_t`. -/
def store_dev (sb : Stat) (v : Int) : Stat := { sb with st_dev := v }

/-- The assignment `sb.st_nlink = nlink;`: `unsigned long` to `nlink_t`, an
`unsigned int`. -/
def store_nlink (sb : Stat) (v : Int) : Stat := { sb with st_nlink := to_unsigned 32 v }

/-- The assignment `sb.st_size = size;`: `unsigned long` to `off_t`. -/
def store_size (sb : Stat) (v : Int) : Stat := { sb with st_size := to_signed 64 v }

/-- The assignments `atime = strtol(...); sb.st_atime = atime;`: the `long` of
`strtol` to the local `unsigned long` to `time_t`. -/
def store_atime (sb : Stat) (v : Int) : Stat :=
  { sb with st_atime := to_signed 64 (to_unsigned 64 v) }

/-- The assignment `sb.st_atimensec = atime_nsec;`: `unsigned long` to `long`. -/
def store_atime_nsec (sb : Stat) (v : Int) : Stat := { sb with st_atime_nsec := to_signed 64 v }

def store_mtime (sb : Stat) (v : Int) : Stat :=
  { sb with st_mtime := to_signed 64 (to_unsigned 64 v) }

def store_mtime_nsec (sb : Stat) (v : Int) : Stat := { sb with st_mtime_nsec := to_signed 64 v }

def store_ctime (sb : Stat) (v : Int) : Stat :=
  { sb with st_ctime := to_signed 64 (to_unsigned 64 v) }

def store_ctime_nsec (sb : Stat) (v : Int) : Stat := { sb with st_ctime_nsec := to_signed 64 v }

/-- The assignments `blocks = strtoul(...); sb.st_blocks = blocks;`:
`unsigned long` to the local `long` to `blkcnt_t`. -/
def store_blocks (sb : Stat) (v : Int) : Stat := { sb with st_blocks := to_signed 64 v }

/-- The assignment `sb.st_blksize = blksize;`: `unsigned long` to `blksize_t`,
an `int`. -/
def store_blksize (sb : Stat) (v : Int) : Stat := { sb with st_blksize := to_signed 32 v }

/-- The twelve field blocks of `add_sus_kstat_statically`, in the order of the
source, on the buffer filled by `stat`. -/
def kstat_field_blocks (argv : List (List Nat)) (sb : Stat) : Option Stat := do
  let sb ← field_block (arg argv 3) strtoul store_ino sb
  let sb ← field_block (arg argv 4) strtoul store_dev sb
  let sb ← field_block (arg argv 5) strtoul store_nlink sb
  let sb ← field_block (arg argv 6) strtoul store_size sb
  let sb ← field_block (arg argv 7) strtol store_atime sb
  let sb ← field_block (arg argv 8) strtoul store_atime_nsec sb
  let sb ← field_block (arg argv 9) strtol store_mtime sb
  let sb ← field_block (arg argv 10) strtoul store_mtime_nsec sb
  let sb ← field_block (arg argv 11) strtol store_ctime sb
  let sb ← field_block (arg argv 12) strtoul store_ctime_nsec sb
  let sb ← field_block (arg argv 13) strtoul store_blocks sb
  field_block (arg argv 14) strtoul store_blksize sb

/-- The branch `add_sus_kstat_statically` of `main`. -/
def add_sus_kstat_statically (w : World) (argv : List (List Nat)) : Run :=
  -- struct st_susfs_sus_kstat info;
  let info := uninit_sus_kstat w
  match get_file_stat w (arg argv 2) with
  | none => ⟨1, [.stat (cstr (arg argv 2)), failed_stat_msg (arg argv 2)]⟩
  | some sb =>
    let info := { info with is_statically := true }
    match kstat_field_blocks argv sb with
    | none => ⟨1, [.stat (cstr (arg argv 2))] ++ print_help⟩
    | some sb' =>
      -- both arms of the ino block store the inode found by stat
      let info := { info with target_ino := sb.st_ino }
      let info := { info with
        target_pathname :=
          strncpy info.target_pathname (arg argv 2) (SUSFS_MAX_LEN_PATHNAME - 1) }
      let info := copy_stat_to_sus_kstat info sb'
      let error :=
        w.prctl KERNEL_SU_OPTION CMD_SUSFS_ADD_SUS_KSTAT_STATICALLY (.sus_kstat info)
      ⟨error, [.stat (cstr (arg argv 2)),
               .prctl KERNEL_SU_OPTION CMD_SUSFS_ADD_SUS_KSTAT_STATICALLY (.sus_kstat info)]
              ++ PRT_MSG_IF_OPERATION_NOT_SUPPORTED error CMD_SUSFS_ADD_SUS_KSTAT_STATICALLY⟩

/-- The branch `add_sus_kstat` of `main`. -/
def add_sus_kstat (w : World) (argv : List (List Nat)) : Run :=
  -- struct st_susfs_sus_kstat info;
  let info := uninit_sus_kstat w
  match get_file_stat w (arg argv 2) with
  | none => ⟨1, [.stat (cstr (arg argv 2)), failed_stat_msg (arg argv 2)]⟩
  | some sb =>
    let info := { info with
      target_pathname :=
        strncpy info.target_pathname (arg argv 2) (SUSFS_MAX_LEN_PATHNAME - 1) }
    let info := { info with is_statically := false }
    let info := { info with target_ino := sb.st_ino }
    let info := copy_stat_to_sus_kstat info sb
    let error := w.prctl KERNEL_SU_OPTION CMD_SUSFS_ADD_SUS_KSTAT (.sus_kstat info)
    ⟨error, [.stat (cstr (arg argv 2)),
             .prctl KERNEL_SU_OPTION CMD_SUSFS_ADD_SUS_KSTAT (.sus_kstat info)]
            ++ PRT_MSG_IF_OPERATION_NOT_SUPPORTED error CMD_SUSFS_ADD_SUS_KSTAT⟩

/-- The initialiser `struct st_susfs_sus_kstat info = {0};`. -/
def zero_sus_kstat : st_susfs_sus_kstat :=
  { is_statically := false
    target_ino := 0
    target_pathname := List.replicate SUSFS_MAX_LEN_PATHNAME 0
    spoofed_ino := 0
    spoofed_dev := 0
    spoofed_nlink := 0
    spoofed_size := 0
    spoofed_atime_tv_sec := 0
    spoofed_mtime_tv_sec := 0
    spoofed_ctime_tv_sec := 0
    spoofed_atime_tv_nsec := 0
    spoofed_mtime_tv_nsec := 0
    spoofed_ctime_tv_nsec := 0
    spoofed_blksize := 0
    spoofed_blocks := 0 }

/-- The branch `update_sus_kstat` of `main`. -/
def update_sus_kstat (w : World) (argv : List (List Nat)) : Run :=
  let info := zero_sus_kstat
  match get_file_stat w (arg argv 2) with
  | none => ⟨1, [.stat (cstr (arg argv 2)), failed_stat_msg (arg argv 2)]⟩
  | some sb =>
    let info := { info with
      target_pathname :=
        strncpy info.target_pathname (arg argv 2) (SUSFS_MAX_LEN_PATHNAME - 1) }
    let info := { info with is_statically := false }
    let info := { info with target_ino := sb.st_ino }
    let info := { info with spoofed_size := sb.st_size }
    -- `long` to `unsigned long long`
    let info := { info with spoofed_blocks := to_unsigned 64 sb.st_blocks }
    let error := w.prctl KERNEL_SU_OPTION CMD_SUSFS_UPDATE_SUS_KSTAT (.sus_kstat info)
    ⟨error, [.stat (cstr (arg argv 2)),
             .prctl KERNEL_SU_OPTION CMD_SUSFS_UPDATE_SUS_KSTAT (.sus_kstat info)]
            ++ PRT_MSG_IF_OPERATION_NOT_SUPPORTED error CMD_SUSFS_UPDATE_SUS_KSTAT⟩

/-- The branch `update_sus_kstat_full_clone` of `main`. -/
def update_sus_kstat_full_clone (w : World) (argv : List (List Nat)) : Run :=
  let info := zero_sus_kstat
  match get_file_stat w (arg argv 2) with
  | none => ⟨1, [.stat (cstr (arg argv 2)), failed_stat_msg (arg argv 2)]⟩
  | some sb =>
    let info := { info with
      target_pathname :=
        strncpy info.target_pathname (arg argv 2) (SUSFS_MAX_LEN_PATHNAME - 1) }
    let info := { info with is_statically := false }
    let info := { info with target_ino := sb.st_ino }
    let error := w.prctl KERNEL_SU_OPTION CMD_SUSFS_UPDATE_SUS_KSTAT (.sus_kstat info)
    ⟨error, [.stat (cstr (arg argv 2)),
             .prctl KERNEL_SU_OPTION CMD_SUSFS_UPDATE_SUS_KSTAT (.sus_kstat info)]
            ++ PRT_MSG_IF_OPERATION_NOT_SUPPORTED error CMD_SUSFS_UPDATE_SUS_KSTAT⟩

/-- The branch `add_try_umount` of `main`. -/
def add_try_umount (w : World) (argv : List (List Nat)) : Run :=
  -- struct st_susfs_try_umount info;
  let info : st_susfs_try_umount := ⟨uninit_bytes w SUSFS_MAX_LEN_PATHNAME, w.stack_int⟩
  let info := { info with
    target_pathname := strncpy info.target_pathname (arg argv 2) (SUSFS_MAX_LEN_PATHNAME - 1) }
  -- `info.target_pathname` may hold no terminator: `realpath` reads on past it
  match realpath_result w (string_at w info.target_pathname SUSFS_MAX_LEN_PATHNAME) with
  | none =>
    ⟨1, [.realpath (string_at w info.target_pathname SUSFS_MAX_LEN_PATHNAME),
         .perror (lit "realpath")]⟩
  | some p_abs_path =>
    if strcmp p_abs_path (lit "/system") = 0 ∨
       strcmp p_abs_path (lit "/vendor") = 0 ∨
       strcmp p_abs_path (lit "/product") = 0 ∨
       strcmp p_abs_path (lit "/data/adb/modules") = 0 ∨
       strcmp p_abs_path (lit "/debug_ramdisk") = 0 ∨
       strcmp p_abs_path (lit "/sbin") = 0 then
      ⟨1, [.realpath (string_at w info.target_pathname SUSFS_MAX_LEN_PATHNAME),
           log (lit "[-] " ++ cstr p_abs_path ++
             lit " cannot be added to try_umount, because it will be umounted by ksu lastly\n")]⟩
    else if strcmp (arg argv 3) (lit "0") ≠ 0 ∧ strcmp (arg argv 3) (lit "1") ≠ 0 then
      ⟨1, [.realpath (string_at w info.target_pathname SUSFS_MAX_LEN_PATHNAME)] ++ print_help⟩
    else
      -- `long` to `int`
      let info := { info with mnt_mode := to_signed 32 (strtol (arg argv 3)).1 }
      if deref (strtol (arg argv 3)).2 ≠ 0 then
        ⟨1, [.realpath (string_at w info.target_pathname SUSFS_MAX_LEN_PATHNAME)] ++ print_help⟩
      else
        let error := w.prctl KERNEL_SU_OPTION CMD_SUSFS_ADD_TRY_UMOUNT (.try_umount info)
        ⟨error, [.realpath (string_at w info.target_pathname SUSFS_MAX_LEN_PATHNAME),
                 .prctl KERNEL_SU_OPTION CMD_SUSFS_ADD_TRY_UMOUNT (.try_umount info)]
                ++ PRT_MSG_IF_OPERATION_NOT_SUPPORTED error CMD_SUSFS_ADD_TRY_UMOUNT⟩

/-- The branch `set_uname` of `main`. -/
def set_uname (w : World) (argv : List (List Nat)) : Run :=
  -- struct st_susfs_uname info;
  let info : st_susfs_uname :=
    ⟨uninit_bytes w (NEW_UTS_LEN + 1), uninit_bytes w (NEW_UTS_LEN + 1)⟩
  let info := { info with release := strncpy info.release (arg argv 2) NEW_UTS_LEN }
  let info := { info with version := strncpy info.version (arg argv 3) NEW_UTS_LEN }
  let error := w.prctl KERNEL_SU_OPTION CMD_SUSFS_SET_UNAME (.uname info)
  ⟨error, [.prctl KERNEL_SU_OPTION CMD_SUSFS_SET_UNAME (.uname info)]
          ++ PRT_MSG_IF_OPERATION_NOT_SUPPORTED error CMD_SUSFS_SET_UNAME⟩

/-- The branch `enable_log` of `main`. -/
def enable_log (w : World) (argv : List (List Nat)) : Run :=
  if strcmp (arg argv 2) (lit "0") ≠ 0 ∧ strcmp (arg argv 2) (lit "1") ≠ 0 then
    ⟨1, print_help⟩
  else
    let error := w.prctl KERNEL_SU_OPTION CMD_SUSFS_ENABLE_LOG (.value (atoi (arg argv 2)))
    ⟨error, [.prctl KERNEL_SU_OPTION CMD_SUSFS_ENABLE_LOG (.value (atoi (arg argv 2)))]
            ++ PRT_MSG_IF_OPERATION_NOT_SUPPORTED error CMD_SUSFS_ENABLE_LOG⟩

/-- The command line handed to `system` on the enable path of `sus_su`. -/
def chmod_pipeline : List Nat :=
  lit "export DRV_PATH=`cat " ++ SUS_SU_CONF_FILE_PATH ++
  lit "`; chmod 666 $\x7bDRV_PATH\x7d && chcon u:object_r:null_device:s0 $\x7bDRV_PATH\x7d"

/-- The command line handed to `system` on the disable path of `sus_su`. -/
def rm_pipeline : List Nat :=
  lit "export DRV_PATH=`cat " ++ SUS_SU_CONF_FILE_PATH ++ lit "`; rm -f $\x7bDRV_PATH\x7d"

/-- The branch `sus_su` of `main`; `error` is the variable of `main`, still
holding its initial value. -/
def sus_su (w : World) (argv : List (List Nat)) (error : Int) : Run :=
  -- struct st_sus_su info;
  let info : st_sus_su := ⟨w.stack_bool, uninit_bytes w 256, w.stack_int⟩
  let mode : Nat := 0o666
  if strcmp (arg argv 2) (lit "0") ≠ 0 ∧ strcmp (arg argv 2) (lit "1") ≠ 0 then
    ⟨error, print_help⟩
  else if strcmp (arg argv 2) (lit "1") = 0 then
    let info := { info with enabled := true }
    let info := { info with maj_dev_num := -1 }
    let submit : List Event :=
      [.prctl KERNEL_SU_OPTION CMD_SUSFS_SUS_SU (.sus_su info)]
    let error := w.prctl KERNEL_SU_OPTION CMD_SUSFS_SUS_SU (.sus_su info)
    let info := w.kernel_sus_su info
    let submit := submit ++ PRT_MSG_IF_OPERATION_NOT_SUPPORTED error CMD_SUSFS_SUS_SU
    if error ≠ 0 then ⟨error, submit⟩
    else
      let dev := makedev info.maj_dev_num 0
      let node : List Event := [.mknod (cstr info.drv_path) (S_IFCHR ||| mode) dev]
      if w.mknod (cstr info.drv_path) (S_IFCHR ||| mode) dev < 0 then
        ⟨1, submit ++ node ++ [log (lit "failed to mknod '" ++ cstr info.drv_path ++ lit "'\n")]⟩
      else
        let node := node ++
          [log (lit "[+] device node created at '" ++ cstr info.drv_path ++ lit "'\n")]
        let conf : List Event := [.fopen SUS_SU_CONF_FILE_PATH (lit "w")]
        if ¬ w.fopen SUS_SU_CONF_FILE_PATH (lit "w") then
          ⟨1, submit ++ node ++ conf ++
            [log (lit "failed to fopen '" ++ cstr info.drv_path ++ lit "'\n")]⟩
        else
          let conf := conf ++ [.fputs (cstr info.drv_path), .fclose]
          if w.system chmod_pipeline ≠ 0 then
            ⟨1, submit ++ node ++ conf ++ [.system chmod_pipeline,
              log (lit "[-] failed to change permission for '" ++ cstr info.drv_path ++
                lit "'\n")]⟩
          else
            ⟨error, submit ++ node ++ conf ++ [.system chmod_pipeline]⟩
  else
    let info := { info with enabled := false }
    let submit : List Event :=
      [.prctl KERNEL_SU_OPTION CMD_SUSFS_SUS_SU (.sus_su info)]
    let error := w.prctl KERNEL_SU_OPTION CMD_SUSFS_SUS_SU (.sus_su info)
    let info := w.kernel_sus_su info
    let submit := submit ++ PRT_MSG_IF_OPERATION_NOT_SUPPORTED error CMD_SUSFS_SUS_SU
    if error ≠ 0 then ⟨error, submit⟩
    else if w.system rm_pipeline ≠ 0 then
      ⟨error, submit ++ [.system rm_pipeline,
        log (lit "[-] failed to remove '" ++ cstr info.drv_path ++ lit "'\n")]⟩
    else
      ⟨error, submit ++ [.system rm_pipeline,
        log (lit "[+] '" ++ cstr info.drv_path ++ lit "' is removed\n")]⟩

/-! ## The main function -/

/-- The chain of `if (argc == n && !strcmp(argv[1], name))` of `main`, which
follows the call of `pre_check`: `argc` is the length of `argv`, and `error` is
the variable of `main` with its initial value. -/
def commands (w : World) (argv : List (List Nat)) : Run :=
  let argc := argv.length
  let error : Int := -1
  if argc = 3 ∧ strcmp (arg argv 1) (lit "add_sus_path") = 0 then
    add_sus_path w argv
  else if argc = 3 ∧ strcmp (arg argv 1) (lit "add_sus_mount") = 0 then
    add_sus_mount w argv
  else if argc = 15 ∧ strcmp (arg argv 1) (lit "add_sus_kstat_statically") = 0 then
    add_sus_kstat_statically w argv
  else if argc = 3 ∧ strcmp (arg argv 1) (lit "add_sus_kstat") = 0 then
    add_sus_kstat w argv
  else if argc = 3 ∧ strcmp (arg argv 1) (lit "update_sus_kstat") = 0 then
    update_sus_kstat w argv
  else if argc = 3 ∧ strcmp (arg argv 1) (lit "update_sus_kstat_full_clone") = 0 then
    update_sus_kstat_full_clone w argv
  else if argc = 4 ∧ strcmp (arg argv 1) (lit "add_try_umount") = 0 then
    add_try_umount w argv
  else if argc = 4 ∧ strcmp (arg argv 1) (lit "set_uname") = 0 then
    set_uname w argv
  else if argc = 3 ∧ strcmp (arg argv 1) (lit "enable_log") = 0 then
    enable_log w argv
  else if argc = 3 ∧ strcmp (arg argv 1) (lit "sus_su") = 0 then
    sus_su w argv error
  else
    ⟨0, print_help⟩

/-- The function `main`: the call `pre_check()`, then the chain of commands. -/
def main (w : World) (argv : List (List Nat)) : Run :=
  match pre_check w with
  | some r => r
  | none => commands w argv

/-! ## Vocabulary of the statements -/

/-- The number written by a string of decimal digits. -/
def decimal_value (ds : List Nat) : Nat := ds.foldl (fun acc c => acc * 10 + (c - 48)) 0

/-- A `struct stat` as the kernel fills it: every field within its C type,
block size and block count not negative. -/
def Stat.wf (sb : Stat) : Prop :=
  (0 ≤ sb.st_ino ∧ sb.st_ino < 2 ^ 64) ∧
  (0 ≤ sb.st_dev ∧ sb.st_dev < 2 ^ 64) ∧
  (0 ≤ sb.st_nlink ∧ sb.st_nlink < 2 ^ 32) ∧
  (-(2 ^ 63) ≤ sb.st_size ∧ sb.st_size < 2 ^ 63) ∧
  (-(2 ^ 63) ≤ sb.st_atime ∧ sb.st_atime < 2 ^ 63) ∧
  (-(2 ^ 63) ≤ sb.st_mtime ∧ sb.st_mtime < 2 ^ 63) ∧
  (-(2 ^ 63) ≤ sb.st_ctime ∧ sb.st_ctime < 2 ^ 63) ∧
  (-(2 ^ 63) ≤ sb.st_atime_nsec ∧ sb.st_atime_nsec < 2 ^ 63) ∧
  (-(2 ^ 63) ≤ sb.st_mtime_nsec ∧ sb.st_mtime_nsec < 2 ^ 63) ∧
  (-(2 ^ 63) ≤ sb.st_ctime_nsec ∧ sb.st_ctime_nsec < 2 ^ 63) ∧
  (0 ≤ sb.st_blksize ∧ sb.st_blksize < 2 ^ 31) ∧
  (0 ≤ sb.st_blocks ∧ sb.st_blocks < 2 ^ 63)

instance (sb : Stat) : Decidable sb.wf := by
  unfold Stat.wf
  infer_instance

/-- What is said of one field of `add_sus_kstat_statically`, for its token
`tok`, the value `live` found by `stat`, and the value `spoofed` submitted:
with the token `default` the spoofed value is the live one, and with a token
of decimal digits whose value is below `bound` it is that value. -/
def field_spec (tok : List Nat) (live : Int) (bound : Nat) (spoofed : Int) : Prop :=
  (cstr tok = lit "default" → spoofed = live) ∧
  (∀ v : Nat, isNumeric tok = 1 → decimal_value (cstr tok) = v → v < bound → spoofed = v)

/-- The kstat record of a run that made exactly one submission, of a kstat
record. -/
def submitted_kstat (r : Run) : Option st_susfs_sus_kstat :=
  match submissions r with
  | [(_, .sus_kstat info)] => some info
  | _ => none

/-- The dispatch table of `main`: the command names with the `argc` each one
is matched with. -/
def dispatch_table : List (String × Nat) :=
  [("add_sus_path", 3), ("add_sus_mount", 3), ("add_sus_kstat_statically", 15),
   ("add_sus_kstat", 3), ("update_sus_kstat", 3), ("update_sus_kstat_full_clone", 3),
   ("add_try_umount", 4), ("set_uname", 4), ("enable_log", 3), ("sus_su", 3)]

/-- The six mount points `add_try_umount` refuses. -/
def protected_roots : List (List Nat) :=
  [lit "/system", lit "/vendor", lit "/product", lit "/data/adb/modules",
   lit "/debug_ramdisk", lit "/sbin"]

/-- A run that made exactly one submission and returned the status the kernel
reported for it. -/
def reports_status (w : World) (r : Run) : Prop :=
  ∃ cmd a, submissions r = [(cmd, a)] ∧ r.exit = w.prctl KERNEL_SU_OPTION cmd a

/-- The actions of a run other than writing messages. -/
def effects (r : Run) : List Event :=
  r.trace.filter fun e =>
    match e with
    | .print _ => false
    | .usage => false
    | .perror _ => false
    | _ => true

/-- A stat buffer used in the examples. -/
def sample_stat : Stat :=
  { st_ino := 100, st_dev := 200, st_nlink := 2, st_size := 4096
    st_atime := 11, st_mtime := 12, st_ctime := 13
    st_atime_nsec := 1, st_mtime_nsec := 2, st_ctime_nsec := 3
    st_blksize := 512, st_blocks := 8 }

/-- A world used in the examples: the caller is root, only `/x` exists, the
kernel accepts every request and every local operation succeeds. -/
def sample_world : World :=
  { uid := 0
    stat := fun p => if p = lit "/x" then some sample_stat else none
    realpath := fun p => some p
    prctl := fun _ _ _ => 0
    kernel_sus_su := fun i => { i with drv_path := lit "/dev/abc", maj_dev_num := 240 }
    mknod := fun _ _ _ => 0
    fopen := fun _ _ => true
    system := fun _ => 0
    stack_bytes := fun _ => 170
    stack_int := 7
    stack_bool := true }

/-- The record `sus_su 1` hands to the kernel: enabled, the driver path not
initialised, the major number -1. -/
def sus_su_enable_request (w : World) : st_sus_su := ⟨true, uninit_bytes w 256, -1⟩

/-- The record `sus_su 0` hands to the kernel: not enabled, the other fields
not initialised. -/
def sus_su_disable_request (w : World) : st_sus_su := ⟨false, uninit_bytes w 256, w.stack_int⟩

/-- The status the kernel reports for a `CMD_SUSFS_SUS_SU` request. -/
def sus_su_status (w : World) (info : st_sus_su) : Int :=
  w.prctl KERNEL_SU_OPTION CMD_SUSFS_SUS_SU (.sus_su info)

/-- The uname record of a run that made exactly one submission, of a uname
record. -/
def submitted_uname (r : Run) : Option st_susfs_uname :=
  match submissions r with
  | [(_, .uname info)] => some info
  | _ => none

/-- The try_umount record of a run that made exactly one submission, of a
try_umount record. -/
def submitted_try_umount (r : Run) : Option st_susfs_try_umount :=
  match submissions r with
  | [(_, .try_umount info)] => some info
  | _ => none

/-- The texts a run printed with `printf`, in order. -/
def printed (r : Run) : List (List Nat) :=
  r.trace.filterMap fun e =>
    match e with
    | .print t => some t
    | _ => none

/-- A run submits only after its local checks: it makes at most one
submission, and none when it printed the usage text, when a `stat` it made
failed, or when a `realpath` it made failed or gave a protected root. -/
def submits_only_after_validation (w : World) (r : Run) : Prop :=
  (submissions r).length ≤ 1 ∧
  (Event.usage ∈ r.trace → submissions r = []) ∧
  (∀ p, Event.stat p ∈ r.trace → w.stat p = none → submissions r = []) ∧
  (∀ p, Event.realpath p ∈ r.trace →
    (realpath_result w p = none ∨
      ∃ q, realpath_result w p = some q ∧ cstr q ∈ protected_roots) →
    submissions r = [])

/-- The actions `main` takes after a submission: messages and the local steps
of `sus_su`. -/
def follows_submission : Event → Bool
  | .print _ => true
  | .mknod _ _ _ => true
  | .fopen _ _ => true
  | .fputs _ => true
  | .fclose => true
  | .system _ => true
  | _ => false

/-- The exit status of the process as its parent sees it: the low 8 bits of
the value `main` returns or hands to `exit`. -/
def exit_code (r : Run) : Int := to_unsigned 8 r.exit

/-- A run that made exactly one submission and returned the status the kernel
reported for it; the exit status of the process is then that status modulo
256, and is the status itself exactly when the status lies between 0 and 255. -/
def exits_with_status (w : World) (r : Run) : Prop :=
  ∃ cmd a, submissions r = [(cmd, a)] ∧ r.exit = w.prctl KERNEL_SU_OPTION cmd a ∧
    exit_code r = w.prctl KERNEL_SU_OPTION cmd a % 256 ∧
    (exit_code r = w.prctl KERNEL_SU_OPTION cmd a ↔
      (0 ≤ w.prctl KERNEL_SU_OPTION cmd a ∧ w.prctl KERNEL_SU_OPTION cmd a < 256))

/-- A path of 255 bytes: `/data/` followed by 249 times `a`. -/
def long_path : List Nat := lit "/data/" ++ List.replicate 249 97

/-- A world like `sample_world` in which `realpath` resolves one path only,
`long_path` followed by the byte 170, and in which the stack holds the byte
170 where the last byte of a field of 256 bytes lies and zero bytes elsewhere. -/
def long_path_world : World :=
  { sample_world with
    stack_bytes := fun i => if i = 255 then 170 else 0
    realpath := fun p => if p = long_path ++ [170] then some p else none }

set_option maxRecDepth 8000

theorem strcmp_eq_zero (a b : List Nat) : strcmp a b = 0 ↔ cstr a = cstr b := by
  unfold strcmp
  split <;> simp_all

theorem strcmp_ne_zero (a b : List Nat) : strcmp a b ≠ 0 ↔ cstr a ≠ cstr b := by
  rw [Ne, strcmp_eq_zero]

theorem cstr_append_rest (m : List Nat) :
    m = cstr m ++ m.dropWhile (fun b => b != 0) := by
  unfold cstr
  exact (List.takeWhile_append_dropWhile _ m).symm

theorem deref_dropWhile (m : List Nat) : deref (m.dropWhile (fun b => b != 0)) = 0 := by
  induction m with
  | nil => rfl
  | cons a t ih =>
    by_cases h : a = 0
    · subst h; rfl
    · have ha : (a != 0) = true := by simp [h]
      rw [List.dropWhile_cons, if_pos ha]
      exact ih

theorem scan_digits_append (ds rest : List Nat) (acc n : Nat)
    (hds : ∀ c ∈ ds, isdigit c = true) (hrest : deref rest = 0) :
    scan_digits (ds ++ rest) acc n =
      (n + ds.length, ds.foldl (fun a c => a * 10 + (c - 48)) acc, rest) := by
  induction ds generalizing acc n with
  | nil =>
    cases rest with
    | nil => simp [scan_digits]
    | cons c cs =>
      have hc : c = 0 := by simpa [deref] using hrest
      subst hc
      simp [scan_digits, isdigit]
  | cons d ds ih =>
    have hd : isdigit d = true := hds d (by simp)
    have := ih (acc * 10 + (d - 48)) (n + 1) (fun c hc => hds c (by simp [hc]))
    simp [scan_digits, hd, this]
    omega

theorem isNumeric_head (tok : List Nat) (h : isNumeric tok = 1) :
    ∃ d t, tok = d :: t ∧ isdigit d = true ∧ ∀ c ∈ cstr tok, isdigit c = true := by
  unfold isNumeric at h
  split at h
  · simp at h
  · rename_i h0
    split at h
    · rename_i hall
      cases tok with
      | nil => simp [deref] at h0
      | cons d t =>
        have hd : d ≠ 0 := by simpa [deref] using h0
        have hall' : ∀ c ∈ cstr (d :: t), isdigit c = true := by
          simpa [List.all_eq_true] using hall
        refine ⟨d, t, rfl, ?_, hall'⟩
        apply hall'
        simp [cstr, List.takeWhile_cons, hd]
    · simp at h

theorem scan_number_numeric (tok : List Nat) (h : isNumeric tok = 1) :
    scan_number tok =
      (false, (cstr tok).length, decimal_value (cstr tok), tok.dropWhile (fun b => b != 0)) ∧
    0 < (cstr tok).length := by
  obtain ⟨d, t, rfl, hd, hall⟩ := isNumeric_head tok h
  have hd' : 48 ≤ d ∧ d ≤ 57 := by simpa [isdigit] using hd
  have hsp : isspace d = false := by
    simp [isspace]; omega
  have hscan := scan_digits_append (cstr (d :: t)) ((d :: t).dropWhile (fun b => b != 0)) 0 0
    hall (deref_dropWhile _)
  rw [← cstr_append_rest] at hscan
  have hlen : 0 < (cstr (d :: t)).length := by
    have : d ≠ 0 := by omega
    simp [cstr, List.takeWhile_cons, this]
  refine ⟨?_, hlen⟩
  have h45 : d ≠ 45 := by omega
  have h43 : d ≠ 43 := by omega
  have hdw : (d :: t).dropWhile isspace = d :: t := by
    simp [List.dropWhile_cons, hsp]
  simp only [scan_number, hdw]
  split
  · rename_i heq
    injection heq with h1 _
    exact absurd h1 h45
  · rename_i heq
    injection heq with h1 _
    exact absurd h1 h43
  · rw [hscan]
    simp only [Nat.zero_add, decimal_value]

theorem strtoul_numeric (tok : List Nat) (h : isNumeric tok = 1) :
    strtoul tok =
      (if ULONG_MAX < (decimal_value (cstr tok) : Int) then ULONG_MAX
        else (decimal_value (cstr tok) : Int),
       tok.dropWhile (fun b => b != 0)) := by
  obtain ⟨hs, hlen⟩ := scan_number_numeric tok h
  unfold strtoul
  rw [hs]
  have : (cstr tok).length ≠ 0 := by omega
  simp only [this, if_false, Bool.false_eq_true]
  split <;> rfl

theorem strtol_numeric (tok : List Nat) (h : isNumeric tok = 1) :
    strtol tok =
      (if LONG_MAX < (decimal_value (cstr tok) : Int) then LONG_MAX
        else (decimal_value (cstr tok) : Int),
       tok.dropWhile (fun b => b != 0)) := by
  obtain ⟨hs, hlen⟩ := scan_number_numeric tok h
  unfold strtol
  rw [hs]
  have : (cstr tok).length ≠ 0 := by omega
  simp only [this, if_false, Bool.false_eq_true]
  split <;> rfl

/-! ## Lemmas on traces and on the dispatch of `main` -/

theorem submissions_not_supported (x : Int) (cmd : Nat) (e : Int) (pre : List Event) :
    submissions ⟨e, pre ++ PRT_MSG_IF_OPERATION_NOT_SUPPORTED x cmd⟩ = submissions ⟨e, pre⟩ := by
  unfold PRT_MSG_IF_OPERATION_NOT_SUPPORTED submissions
  split <;> simp [log]

theorem main_eq_of_root (w : World) (argv : List (List Nat)) (h : w.uid = 0) :
    main w argv =
      if argv.length = 3 ∧ cstr (arg argv 1) = lit "add_sus_path" then
        add_sus_path w argv
      else if argv.length = 3 ∧ cstr (arg argv 1) = lit "add_sus_mount" then
        add_sus_mount w argv
      else if argv.length = 15 ∧ cstr (arg argv 1) = lit "add_sus_kstat_statically" then
        add_sus_kstat_statically w argv
      else if argv.length = 3 ∧ cstr (arg argv 1) = lit "add_sus_kstat" then
        add_sus_kstat w argv
      else if argv.length = 3 ∧ cstr (arg argv 1) = lit "update_sus_kstat" then
        update_sus_kstat w argv
      else if argv.length = 3 ∧ cstr (arg argv 1) = lit "update_sus_kstat_full_clone" then
        update_sus_kstat_full_clone w argv
      else if argv.length = 4 ∧ cstr (arg argv 1) = lit "add_try_umount" then
        add_try_umount w argv
      else if argv.length = 4 ∧ cstr (arg argv 1) = lit "set_uname" then
        set_uname w argv
      else if argv.length = 3 ∧ cstr (arg argv 1) = lit "enable_log" then
        enable_log w argv
      else if argv.length = 3 ∧ cstr (arg argv 1) = lit "sus_su" then
        sus_su w argv (-1)
      else
        ⟨0, print_help⟩ := by
  have hc : ∀ s : String, (∀ c ∈ lit s, c ≠ 0) → cstr (lit s) = lit s := by
    intro s hs
    unfold cstr
    rw [List.takeWhile_eq_self_iff]
    intro c hc
    simpa using hs c hc
  simp only [main, commands, pre_check, h, strcmp_eq_zero]
  rw [hc "add_sus_path" (by decide), hc "add_sus_mount" (by decide),
    hc "add_sus_kstat_statically" (by decide), hc "add_sus_kstat" (by decide),
    hc "update_sus_kstat" (by decide), hc "update_sus_kstat_full_clone" (by decide),
    hc "add_try_umount" (by decide), hc "set_uname" (by decide), hc "enable_log" (by decide),
    hc "sus_su" (by decide)]
  simp

theorem main_add_sus_path (w : World) (argv : List (List Nat)) (h : w.uid = 0)
    (hlen : argv.length = 3) (h1 : cstr (arg argv 1) = lit "add_sus_path") :
    main w argv = add_sus_path w argv := by
  rw [main_eq_of_root w argv h]
  simp +decide [h1, hlen]

theorem main_add_sus_mount (w : World) (argv : List (List Nat)) (h : w.uid = 0)
    (hlen : argv.length = 3) (h1 : cstr (arg argv 1) = lit "add_sus_mount") :
    main w argv = add_sus_mount w argv := by
  rw [main_eq_of_root w argv h]
  simp +decide [h1, hlen]

theorem main_add_sus_kstat_statically (w : World) (argv : List (List Nat)) (h : w.uid = 0)
    (hlen : argv.length = 15) (h1 : cstr (arg argv 1) = lit "add_sus_kstat_statically") :
    main w argv = add_sus_kstat_statically w argv := by
  rw [main_eq_of_root w argv h]
  simp +decide [h1, hlen]

theorem main_add_sus_kstat (w : World) (argv : List (List Nat)) (h : w.uid = 0)
    (hlen : argv.length = 3) (h1 : cstr (arg argv 1) = lit "add_sus_kstat") :
    main w argv = add_sus_kstat w argv := by
  rw [main_eq_of_root w argv h]
  simp +decide [h1, hlen]

theorem main_update_sus_kstat (w : World) (argv : List (List Nat)) (h : w.uid = 0)
    (hlen : argv.length = 3) (h1 : cstr (arg argv 1) = lit "update_sus_kstat") :
    main w argv = update_sus_kstat w argv := by
  rw [main_eq_of_root w argv h]
  simp +decide [h1, hlen]

theorem main_update_sus_kstat_full_clone (w : World) (argv : List (List Nat)) (h : w.uid = 0)
    (hlen : argv.length = 3) (h1 : cstr (arg argv 1) = lit "update_sus_kstat_full_clone") :
    main w argv = update_sus_kstat_full_clone w argv := by
  rw [main_eq_of_root w argv h]
  simp +decide [h1, hlen]

theorem main_add_try_umount (w : World) (argv : List (List Nat)) (h : w.uid = 0)
    (hlen : argv.length = 4) (h1 : cstr (arg argv 1) = lit "add_try_umount") :
    main w argv = add_try_umount w argv := by
  rw [main_eq_of_root w argv h]
  simp +decide [h1, hlen]

theorem main_set_uname (w : World) (argv : List (List Nat)) (h : w.uid = 0)
    (hlen : argv.length = 4) (h1 : cstr (arg argv 1) = lit "set_uname") :
    main w argv = set_uname w argv := by
  rw [main_eq_of_root w argv h]
  simp +decide [h1, hlen]

theorem main_enable_log (w : World) (argv : List (List Nat)) (h : w.uid = 0)
    (hlen : argv.length = 3) (h1 : cstr (arg argv 1) = lit "enable_log") :
    main w argv = enable_log w argv := by
  rw [main_eq_of_root w argv h]
  simp +decide [h1, hlen]

theorem main_sus_su (w : World) (argv : List (List Nat)) (h : w.uid = 0)
    (hlen : argv.length = 3) (h1 : cstr (arg argv 1) = lit "sus_su") :
    main w argv = sus_su w argv (-1) := by
  rw [main_eq_of_root w argv h]
  simp +decide [h1, hlen]

/-- The command name of an argument vector written out with a literal name. -/
theorem cstr_arg_one (prog : List Nat) (s : String) (rest : List (List Nat))
    (hs : ∀ c ∈ lit s, c ≠ 0) : cstr (arg (prog :: lit s :: rest) 1) = lit s := by
  unfold cstr arg
  simp only [List.getD_cons_succ, List.getD_cons_zero]
  rw [List.takeWhile_eq_self_iff]
  intro c hc
  simpa using hs c hc

theorem to_unsigned_of_range (w : Nat) (x : Int) (h0 : 0 ≤ x) (h1 : x < 2 ^ w) :
    to_unsigned w x = x := by
  unfold to_unsigned
  exact Int.emod_eq_of_lt h0 h1

/-- C4: for every resolvable path, `update_sus_kstat` submits a record whose
target inode, spoofed size and spoofed block count are those of the current
stat of the path and whose other spoofed fields are zero, and
`update_sus_kstat_full_clone` submits a record whose target inode is that of
the current stat and whose spoofed fields are all zero; in both records the
is-static flag is false. -/
theorem update_sus_kstat_records (w : World) (prog path : List Nat) (sb : Stat)
    (hroot : w.uid = 0) (hstat : w.stat (cstr path) = some sb) (hwf : sb.wf) :
    (∃ info, submissions (main w [prog, lit "update_sus_kstat", path]) =
        [(CMD_SUSFS_UPDATE_SUS_KSTAT, .sus_kstat info)] ∧
      info.is_statically = false ∧ info.target_ino = sb.st_ino ∧
      info.spoofed_size = sb.st_size ∧ info.spoofed_blocks = sb.st_blocks ∧
      info.spoofed_ino = 0 ∧ info.spoofed_dev = 0 ∧ info.spoofed_nlink = 0 ∧
      info.spoofed_atime_tv_sec = 0 ∧ info.spoofed_mtime_tv_sec = 0 ∧
      info.spoofed_ctime_tv_sec = 0 ∧ info.spoofed_atime_tv_nsec = 0 ∧
      info.spoofed_mtime_tv_nsec = 0 ∧ info.spoofed_ctime_tv_nsec = 0 ∧
      info.spoofed_blksize = 0) ∧
    (∃ info, submissions (main w [prog, lit "update_sus_kstat_full_clone", path]) =
        [(CMD_SUSFS_UPDATE_SUS_KSTAT, .sus_kstat info)] ∧
      info.is_statically = false ∧ info.target_ino = sb.st_ino ∧
      info.spoofed_size = 0 ∧ info.spoofed_blocks = 0 ∧
      info.spoofed_ino = 0 ∧ info.spoofed_dev = 0 ∧ info.spoofed_nlink = 0 ∧
      info.spoofed_atime_tv_sec = 0 ∧ info.spoofed_mtime_tv_sec = 0 ∧
      info.spoofed_ctime_tv_sec = 0 ∧ info.spoofed_atime_tv_nsec = 0 ∧
      info.spoofed_mtime_tv_nsec = 0 ∧ info.spoofed_ctime_tv_nsec = 0 ∧
      info.spoofed_blksize = 0) := by
  have hb : to_unsigned 64 sb.st_blocks = sb.st_blocks :=
    to_unsigned_of_range 64 sb.st_blocks hwf.2.2.2.2.2.2.2.2.2.2.2.1
      (lt_trans hwf.2.2.2.2.2.2.2.2.2.2.2.2 (by norm_num))
  constructor
  · rw [main_update_sus_kstat w [prog, lit "update_sus_kstat", path] hroot rfl
      (cstr_arg_one _ _ _ (by decide))]
    simp only [arg, List.getD_cons_succ, List.getD_cons_zero, update_sus_kstat,
      get_file_stat, hstat, submissions_not_supported]
    refine ⟨_, rfl, ?_⟩
    simp [zero_sus_kstat, hb]
  · rw [main_update_sus_kstat_full_clone w [prog, lit "update_sus_kstat_full_clone", path] hroot
      rfl (cstr_arg_one _ _ _ (by decide))]
    simp only [arg, List.getD_cons_succ, List.getD_cons_zero,
      update_sus_kstat_full_clone, get_file_stat, hstat, submissions_not_supported]
    refine ⟨_, rfl, ?_⟩
    simp [zero_sus_kstat]

theorem update_sus_kstat_records_witness :
    ∃ info, submissions (main sample_world [lit "ksu_susfs", lit "update_sus_kstat", lit "/x"]) =
        [(CMD_SUSFS_UPDATE_SUS_KSTAT, .sus_kstat info)] ∧
      info.target_ino = 100 ∧ info.spoofed_size = 4096 ∧ info.spoofed_blocks = 8 := by
  obtain ⟨info, h, _, h1, h2, h3, _⟩ :=
    (update_sus_kstat_records sample_world (lit "ksu_susfs") (lit "/x") sample_stat
      rfl (by decide) (by decide)).1
  exact ⟨info, h, h1, h2, h3⟩

/-- C5: for each of the six commands that resolve the path with `stat`, with
its matching argument count, a failing `stat` makes the command return 1
without any submission to the control channel, whatever the other arguments
are. -/
theorem stat_failure_returns_one (w : World) (argv : List (List Nat))
    (hroot : w.uid = 0)
    (hcmd : (argv.length = 3 ∧
        (cstr (arg argv 1) = lit "add_sus_path" ∨ cstr (arg argv 1) = lit "add_sus_mount" ∨
         cstr (arg argv 1) = lit "add_sus_kstat" ∨ cstr (arg argv 1) = lit "update_sus_kstat" ∨
         cstr (arg argv 1) = lit "update_sus_kstat_full_clone")) ∨
      (argv.length = 15 ∧ cstr (arg argv 1) = lit "add_sus_kstat_statically"))
    (hstat : w.stat (cstr (arg argv 2)) = none) :
    (main w argv).exit = 1 ∧ submissions (main w argv) = [] ∧
      stat_queries (main w argv) = [cstr (arg argv 2)] := by
  rcases hcmd with ⟨hlen, h1 | h1 | h1 | h1 | h1⟩ | ⟨hlen, h1⟩
  · rw [main_add_sus_path w argv hroot hlen h1]
    simp [add_sus_path, get_file_stat, hstat, submissions, stat_queries, log]
  · rw [main_add_sus_mount w argv hroot hlen h1]
    simp [add_sus_mount, get_file_stat, hstat, submissions, stat_queries, log, failed_stat_msg]
  · rw [main_add_sus_kstat w argv hroot hlen h1]
    simp [add_sus_kstat, get_file_stat, hstat, submissions, stat_queries, log, failed_stat_msg]
  · rw [main_update_sus_kstat w argv hroot hlen h1]
    simp [update_sus_kstat, get_file_stat, hstat, submissions, stat_queries, log,
      failed_stat_msg]
  · rw [main_update_sus_kstat_full_clone w argv hroot hlen h1]
    simp [update_sus_kstat_full_clone, get_file_stat, hstat, submissions, stat_queries, log,
      failed_stat_msg]
  · rw [main_add_sus_kstat_statically w argv hroot hlen h1]
    simp [add_sus_kstat_statically, get_file_stat, hstat, submissions, stat_queries, log,
      failed_stat_msg]

theorem stat_failure_returns_one_witness :
    (main sample_world [lit "ksu_susfs", lit "add_sus_path", lit "/nonexistent"]).exit = 1 ∧
    submissions (main sample_world [lit "ksu_susfs", lit "add_sus_path", lit "/nonexistent"])
      = [] ∧
    stat_queries (main sample_world [lit "ksu_susfs", lit "add_sus_path", lit "/nonexistent"])
      = [cstr (arg [lit "ksu_susfs", lit "add_sus_path", lit "/nonexistent"] 2)] :=
  stat_failure_returns_one sample_world
    [lit "ksu_susfs", lit "add_sus_path", lit "/nonexistent"] rfl
    (Or.inl ⟨rfl, Or.inl (by decide)⟩) (by decide)

/-- C6: an argument vector that matches no pair of command name and argument
count of the dispatch table (an unknown name, no command, or a known name
with another number of arguments) makes the program print the usage text and
return 0, with no `stat` query and no submission. -/
theorem unmatched_prints_usage (w : World) (argv : List (List Nat)) (hroot : w.uid = 0)
    (hno : ∀ e ∈ dispatch_table, ¬ (argv.length = e.2 ∧ cstr (arg argv 1) = lit e.1)) :
    (main w argv).exit = 0 ∧ (main w argv).trace = [Event.usage] ∧
      stat_queries (main w argv) = [] ∧ submissions (main w argv) = [] := by
  have hmain : main w argv = ⟨0, print_help⟩ := by
    rw [main_eq_of_root w argv hroot]
    simp only [dispatch_table, List.mem_cons, List.mem_singleton, forall_eq_or_imp,
      List.not_mem_nil, false_implies, forall_const, and_true, forall_eq] at hno
    obtain ⟨h1, h2, h3, h4, h5, h6, h7, h8, h9, h10⟩ := hno
    rw [if_neg h1, if_neg h2, if_neg h3, if_neg h4, if_neg h5, if_neg h6, if_neg h7,
      if_neg h8, if_neg h9, if_neg h10]
  rw [hmain]
  simp [print_help, stat_queries, submissions]

theorem unmatched_prints_usage_witness :
    (main sample_world [lit "ksu_susfs", lit "add_sus_path"]).exit = 0 ∧
    (main sample_world [lit "ksu_susfs", lit "add_sus_path"]).trace = [Event.usage] ∧
    stat_queries (main sample_world [lit "ksu_susfs", lit "add_sus_path"]) = [] ∧
    submissions (main sample_world [lit "ksu_susfs", lit "add_sus_path"]) = [] :=
  unmatched_prints_usage sample_world [lit "ksu_susfs", lit "add_sus_path"] rfl (by decide)

theorem isNumeric_of_cstr_digit (tok : List Nat) (d : Nat) (hd : isdigit d = true)
    (h : cstr tok = [d]) : isNumeric tok = 1 := by
  have hd0 : d ≠ 0 := by
    have : 48 ≤ d ∧ d ≤ 57 := by simpa [isdigit] using hd
    omega
  cases tok with
  | nil => simp [cstr] at h
  | cons a t =>
    have ha : a = d := by
      by_cases ha0 : a = 0
      · subst ha0; simp [cstr] at h
      · simp [cstr, List.takeWhile_cons, ha0] at h
        exact h.1
    subst ha
    unfold isNumeric
    simp [deref, hd0, h, hd]

theorem strtol_digit (tok : List Nat) (d : Nat) (hd : isdigit d = true)
    (h : cstr tok = [d]) :
    (strtol tok).1 = ((d - 48 : Nat) : Int) ∧ deref (strtol tok).2 = 0 := by
  have hd' : 48 ≤ d ∧ d ≤ 57 := by simpa [isdigit] using hd
  rw [strtol_numeric tok (isNumeric_of_cstr_digit tok d hd h), h]
  refine ⟨?_, deref_dropWhile tok⟩
  have hv : decimal_value [d] = d - 48 := by simp [decimal_value]
  simp only [hv, LONG_MAX]
  rw [if_neg]
  omega

theorem protected_iff (p : List Nat) :
    (strcmp p (lit "/system") = 0 ∨ strcmp p (lit "/vendor") = 0 ∨
      strcmp p (lit "/product") = 0 ∨ strcmp p (lit "/data/adb/modules") = 0 ∨
      strcmp p (lit "/debug_ramdisk") = 0 ∨ strcmp p (lit "/sbin") = 0) ↔
    cstr p ∈ protected_roots := by
  have h1 : cstr (lit "/system") = lit "/system" := by decide
  have h2 : cstr (lit "/vendor") = lit "/vendor" := by decide
  have h3 : cstr (lit "/product") = lit "/product" := by decide
  have h4 : cstr (lit "/data/adb/modules") = lit "/data/adb/modules" := by decide
  have h5 : cstr (lit "/debug_ramdisk") = lit "/debug_ramdisk" := by decide
  have h6 : cstr (lit "/sbin") = lit "/sbin" := by decide
  simp only [strcmp_eq_zero, h1, h2, h3, h4, h5, h6, protected_roots, List.mem_cons,
    List.mem_singleton, List.not_mem_nil, or_false]

theorem mode_token_iff (tok : List Nat) :
    (strcmp tok (lit "0") ≠ 0 ∧ strcmp tok (lit "1") ≠ 0) ↔
    (cstr tok ≠ lit "0" ∧ cstr tok ≠ lit "1") := by
  have h0 : cstr (lit "0") = lit "0" := by decide
  have h1 : cstr (lit "1") = lit "1" := by decide
  simp only [strcmp_ne_zero, h0, h1]

/-- C3: for an `add_try_umount` whose path canonicalizes, the command is
rejected (it returns 1 without a submission) exactly when the canonical path
is one of the six protected roots or the mode token is neither "0" nor "1";
in every other case it makes one submission, whose `mnt_mode` is 0 for the
token "0" and 1 for the token "1". -/
theorem add_try_umount_rejects_exactly (w : World) (prog path mode p : List Nat)
    (hroot : w.uid = 0)
    (hreal : realpath_result w (string_at w (strncpy (uninit_bytes w SUSFS_MAX_LEN_PATHNAME)
      path (SUSFS_MAX_LEN_PATHNAME - 1)) SUSFS_MAX_LEN_PATHNAME) = some p) :
    (((main w [prog, lit "add_try_umount", path, mode]).exit = 1 ∧
        submissions (main w [prog, lit "add_try_umount", path, mode]) = []) ↔
      (cstr p ∈ protected_roots ∨ (cstr mode ≠ lit "0" ∧ cstr mode ≠ lit "1"))) ∧
    (¬ (cstr p ∈ protected_roots ∨ (cstr mode ≠ lit "0" ∧ cstr mode ≠ lit "1")) →
      ∃ info, submissions (main w [prog, lit "add_try_umount", path, mode]) =
          [(CMD_SUSFS_ADD_TRY_UMOUNT, .try_umount info)] ∧
        (cstr mode = lit "0" → info.mnt_mode = 0) ∧
        (cstr mode = lit "1" → info.mnt_mode = 1)) := by
  rw [main_add_try_umount w [prog, lit "add_try_umount", path, mode] hroot rfl
    (cstr_arg_one _ _ _ (by decide))]
  simp only [add_try_umount, arg, List.getD_cons_succ, List.getD_cons_zero, hreal,
    protected_iff, mode_token_iff]
  by_cases hp : cstr p ∈ protected_roots
  · simp [hp, submissions, log]
  · by_cases hm : cstr mode ≠ lit "0" ∧ cstr mode ≠ lit "1"
    · simp [hp, hm, submissions, print_help]
    · have hmode : cstr mode = lit "0" ∨ cstr mode = lit "1" := by
        by_cases h0 : cstr mode = lit "0"
        · exact Or.inl h0
        · exact Or.inr (by_contra fun h1 => hm ⟨h0, h1⟩)
      have hparse : deref (strtol mode).2 = 0 ∧
          (cstr mode = lit "0" → to_signed 32 (strtol mode).1 = 0) ∧
          (cstr mode = lit "1" → to_signed 32 (strtol mode).1 = 1) := by
        rcases hmode with h0 | h1
        · obtain ⟨hv, he⟩ := strtol_digit mode 48 (by decide) h0
          refine ⟨he, fun _ => by rw [hv]; decide, fun h => ?_⟩
          rw [h0] at h
          exact absurd h (by decide)
        · obtain ⟨hv, he⟩ := strtol_digit mode 49 (by decide) h1
          refine ⟨he, fun h => ?_, fun _ => by rw [hv]; decide⟩
          rw [h1] at h
          exact absurd h (by decide)
      rw [if_neg hp, if_neg hm]
      simp only [hparse.1, ne_eq, not_true_eq_false, if_false, submissions_not_supported]
      simp only [hp, hm, or_self, iff_false, not_and, not_false_eq_true, true_implies]
      refine ⟨fun _ => by simp [submissions], _, rfl, hparse.2.1, hparse.2.2⟩

theorem add_try_umount_rejects_exactly_witness :
    (((main sample_world [lit "ksu_susfs", lit "add_try_umount", lit "/x", lit "1"]).exit = 1 ∧
        submissions (main sample_world [lit "ksu_susfs", lit "add_try_umount", lit "/x", lit "1"])
          = []) ↔
      (cstr (lit "/x") ∈ protected_roots ∨ (cstr (lit "1") ≠ lit "0" ∧ cstr (lit "1") ≠ lit "1"))) ∧
    (¬ (cstr (lit "/x") ∈ protected_roots ∨ (cstr (lit "1") ≠ lit "0" ∧ cstr (lit "1") ≠ lit "1")) →
      ∃ info, submissions (main sample_world
          [lit "ksu_susfs", lit "add_try_umount", lit "/x", lit "1"]) =
          [(CMD_SUSFS_ADD_TRY_UMOUNT, .try_umount info)] ∧
        (cstr (lit "1") = lit "0" → info.mnt_mode = 0) ∧
        (cstr (lit "1") = lit "1" → info.mnt_mode = 1)) :=
  add_try_umount_rejects_exactly sample_world (lit "ksu_susfs") (lit "/x") (lit "1") (lit "/x")
    rfl (by decide)

theorem reports_status_of_submit (w : World) (pre : List Event) (cmd : Nat) (a : Arg)
    (hpre : submissions ⟨0, pre⟩ = []) :
    reports_status w
      ⟨w.prctl KERNEL_SU_OPTION cmd a,
        pre ++ [.prctl KERNEL_SU_OPTION cmd a] ++
          PRT_MSG_IF_OPERATION_NOT_SUPPORTED (w.prctl KERNEL_SU_OPTION cmd a) cmd⟩ := by
  refine ⟨cmd, a, ?_, rfl⟩
  rw [submissions_not_supported]
  unfold submissions at hpre ⊢
  simp only [List.filterMap_append, hpre]
  rfl

/-- For each of the nine commands that submit a record and report, once the
local validation and the resolution of the path have succeeded, `main` makes
one submission and returns the status the control channel reported for it. -/
theorem main_returns_channel_status (w : World) (hroot : w.uid = 0) :
    (∀ prog path sb, w.stat (cstr path) = some sb →
      reports_status w (main w [prog, lit "add_sus_path", path])) ∧
    (∀ prog path sb, w.stat (cstr path) = some sb →
      reports_status w (main w [prog, lit "add_sus_mount", path])) ∧
    (∀ prog path toks sb, toks.length = 12 → w.stat (cstr path) = some sb →
      kstat_field_blocks (prog :: lit "add_sus_kstat_statically" :: path :: toks) sb ≠ none →
      reports_status w (main w (prog :: lit "add_sus_kstat_statically" :: path :: toks))) ∧
    (∀ prog path sb, w.stat (cstr path) = some sb →
      reports_status w (main w [prog, lit "add_sus_kstat", path])) ∧
    (∀ prog path sb, w.stat (cstr path) = some sb →
      reports_status w (main w [prog, lit "update_sus_kstat", path])) ∧
    (∀ prog path sb, w.stat (cstr path) = some sb →
      reports_status w (main w [prog, lit "update_sus_kstat_full_clone", path])) ∧
    (∀ prog path mode p,
      realpath_result w (string_at w (strncpy (uninit_bytes w SUSFS_MAX_LEN_PATHNAME)
        path (SUSFS_MAX_LEN_PATHNAME - 1)) SUSFS_MAX_LEN_PATHNAME) = some p →
      cstr p ∉ protected_roots → (cstr mode = lit "0" ∨ cstr mode = lit "1") →
      reports_status w (main w [prog, lit "add_try_umount", path, mode])) ∧
    (∀ prog release version,
      reports_status w (main w [prog, lit "set_uname", release, version])) ∧
    (∀ prog mode, (cstr mode = lit "0" ∨ cstr mode = lit "1") →
      reports_status w (main w [prog, lit "enable_log", mode])) := by
  refine ⟨?_, ?_, ?_, ?_, ?_, ?_, ?_, ?_, ?_⟩
  · intro prog path sb hstat
    rw [main_add_sus_path w [prog, lit "add_sus_path", path] hroot rfl
      (cstr_arg_one _ _ _ (by decide))]
    simp only [add_sus_path, arg, List.getD_cons_succ, List.getD_cons_zero, get_file_stat, hstat]
    exact reports_status_of_submit w [.stat (cstr path)] _ _ rfl
  · intro prog path sb hstat
    rw [main_add_sus_mount w [prog, lit "add_sus_mount", path] hroot rfl
      (cstr_arg_one _ _ _ (by decide))]
    simp only [add_sus_mount, arg, List.getD_cons_succ, List.getD_cons_zero, get_file_stat,
      hstat]
    exact reports_status_of_submit w [.stat (cstr path)] _ _ rfl
  · intro prog path toks sb hlen hstat hblocks
    rw [main_add_sus_kstat_statically w (prog :: lit "add_sus_kstat_statically" :: path :: toks)
      hroot (by simp [hlen]) (cstr_arg_one _ _ _ (by decide))]
    obtain ⟨sb', hsb'⟩ := Option.ne_none_iff_exists'.mp hblocks
    simp only [add_sus_kstat_statically, get_file_stat, arg, List.getD_cons_succ,
      List.getD_cons_zero, hstat, hsb']
    exact reports_status_of_submit w [.stat (cstr path)] _ _ rfl
  · intro prog path sb hstat
    rw [main_add_sus_kstat w [prog, lit "add_sus_kstat", path] hroot rfl
      (cstr_arg_one _ _ _ (by decide))]
    simp only [add_sus_kstat, arg, List.getD_cons_succ, List.getD_cons_zero, get_file_stat,
      hstat]
    exact reports_status_of_submit w [.stat (cstr path)] _ _ rfl
  · intro prog path sb hstat
    rw [main_update_sus_kstat w [prog, lit "update_sus_kstat", path] hroot rfl
      (cstr_arg_one _ _ _ (by decide))]
    simp only [update_sus_kstat, arg, List.getD_cons_succ, List.getD_cons_zero, get_file_stat,
      hstat]
    exact reports_status_of_submit w [.stat (cstr path)] _ _ rfl
  · intro prog path sb hstat
    rw [main_update_sus_kstat_full_clone w [prog, lit "update_sus_kstat_full_clone", path] hroot
      rfl (cstr_arg_one _ _ _ (by decide))]
    simp only [update_sus_kstat_full_clone, arg, List.getD_cons_succ, List.getD_cons_zero,
      get_file_stat, hstat]
    exact reports_status_of_submit w [.stat (cstr path)] _ _ rfl
  · intro prog path mode p hreal hp hmode
    rw [main_add_try_umount w [prog, lit "add_try_umount", path, mode] hroot rfl
      (cstr_arg_one _ _ _ (by decide))]
    have hm : ¬ (cstr mode ≠ lit "0" ∧ cstr mode ≠ lit "1") := by
      rintro ⟨h0, h1⟩
      exact hmode.elim h0 h1
    have he : deref (strtol mode).2 = 0 := by
      rcases hmode with h0 | h1
      · exact (strtol_digit mode 48 (by decide) h0).2
      · exact (strtol_digit mode 49 (by decide) h1).2
    simp only [add_try_umount, arg, List.getD_cons_succ, List.getD_cons_zero, hreal,
      protected_iff, mode_token_iff, if_neg hp, if_neg hm, he, ne_eq, not_true_eq_false,
      if_false]
    exact reports_status_of_submit w [.realpath _] _ _ rfl
  · intro prog release version
    rw [main_set_uname w [prog, lit "set_uname", release, version] hroot rfl
      (cstr_arg_one _ _ _ (by decide))]
    simp only [set_uname]
    exact reports_status_of_submit w [] _ _ rfl
  · intro prog mode hmode
    rw [main_enable_log w [prog, lit "enable_log", mode] hroot rfl
      (cstr_arg_one _ _ _ (by decide))]
    have hm : ¬ (cstr mode ≠ lit "0" ∧ cstr mode ≠ lit "1") := by
      rintro ⟨h0, h1⟩
      exact hmode.elim h0 h1
    simp only [enable_log, arg, List.getD_cons_succ, List.getD_cons_zero, mode_token_iff,
      if_neg hm]
    exact reports_status_of_submit w [] _ _ rfl

theorem exits_with_status_of_reports (w : World) (r : Run) (h : reports_status w r) :
    exits_with_status w r := by
  obtain ⟨cmd, a, hs, he⟩ := h
  refine ⟨cmd, a, hs, he, ?_, ?_⟩
  · simp only [exit_code, to_unsigned, he]
    norm_num
  · simp only [exit_code, to_unsigned, he]
    norm_num
    omega

/-- C7 (amended): for each of the nine commands that submit a record and
report, once the local validation and the resolution of the path have
succeeded, the value `main` returns is the status the control channel reported
for the one submission made, whatever that status is; the exit status of the
process is that status modulo 256, and is the status itself exactly when the
status lies between 0 and 255. -/
theorem exit_code_is_status_mod_256 (w : World) (hroot : w.uid = 0) :
    (∀ prog path sb, w.stat (cstr path) = some sb →
      exits_with_status w (main w [prog, lit "add_sus_path", path])) ∧
    (∀ prog path sb, w.stat (cstr path) = some sb →
      exits_with_status w (main w [prog, lit "add_sus_mount", path])) ∧
    (∀ prog path toks sb, toks.length = 12 → w.stat (cstr path) = some sb →
      kstat_field_blocks (prog :: lit "add_sus_kstat_statically" :: path :: toks) sb ≠ none →
      exits_with_status w (main w (prog :: lit "add_sus_kstat_statically" :: path :: toks))) ∧
    (∀ prog path sb, w.stat (cstr path) = some sb →
      exits_with_status w (main w [prog, lit "add_sus_kstat", path])) ∧
    (∀ prog path sb, w.stat (cstr path) = some sb →
      exits_with_status w (main w [prog, lit "update_sus_kstat", path])) ∧
    (∀ prog path sb, w.stat (cstr path) = some sb →
      exits_with_status w (main w [prog, lit "update_sus_kstat_full_clone", path])) ∧
    (∀ prog path mode p,
      realpath_result w (string_at w (strncpy (uninit_bytes w SUSFS_MAX_LEN_PATHNAME)
        path (SUSFS_MAX_LEN_PATHNAME - 1)) SUSFS_MAX_LEN_PATHNAME) = some p →
      cstr p ∉ protected_roots → (cstr mode = lit "0" ∨ cstr mode = lit "1") →
      exits_with_status w (main w [prog, lit "add_try_umount", path, mode])) ∧
    (∀ prog release version,
      exits_with_status w (main w [prog, lit "set_uname", release, version])) ∧
    (∀ prog mode, (cstr mode = lit "0" ∨ cstr mode = lit "1") →
      exits_with_status w (main w [prog, lit "enable_log", mode])) := by
  obtain ⟨h1, h2, h3, h4, h5, h6, h7, h8, h9⟩ := main_returns_channel_status w hroot
  refine ⟨?_, ?_, ?_, ?_, ?_, ?_, ?_, ?_, ?_⟩
  · exact fun prog path sb hs => exits_with_status_of_reports w _ (h1 prog path sb hs)
  · exact fun prog path sb hs => exits_with_status_of_reports w _ (h2 prog path sb hs)
  · exact fun prog path toks sb hl hs hb =>
      exits_with_status_of_reports w _ (h3 prog path toks sb hl hs hb)
  · exact fun prog path sb hs => exits_with_status_of_reports w _ (h4 prog path sb hs)
  · exact fun prog path sb hs => exits_with_status_of_reports w _ (h5 prog path sb hs)
  · exact fun prog path sb hs => exits_with_status_of_reports w _ (h6 prog path sb hs)
  · exact fun prog path mode p hr hp hm =>
      exits_with_status_of_reports w _ (h7 prog path mode p hr hp hm)
  · exact fun prog release version => exits_with_status_of_reports w _ (h8 prog release version)
  · exact fun prog mode hm => exits_with_status_of_reports w _ (h9 prog mode hm)

theorem exit_code_is_status_mod_256_witness :
    exits_with_status { sample_world with prctl := fun _ _ _ => -22 }
      (main { sample_world with prctl := fun _ _ _ => -22 }
        [lit "ksu_susfs", lit "add_sus_path", lit "/x"]) :=
  (exit_code_is_status_mod_256 { sample_world with prctl := fun _ _ _ => -22 } rfl).1
    (lit "ksu_susfs") (lit "/x") sample_stat (by decide)

/-- C7 as stated fails: as root, `add_sus_path /x` with the control channel
reporting -22 makes one submission, returns -22 from `main`, and the exit
status of the process is 234, not the raw status. -/
theorem exit_code_wraps_negative_status :
    (submissions (main { sample_world with prctl := fun _ _ _ => -22 }
      [lit "ksu_susfs", lit "add_sus_path", lit "/x"])).map
        (fun c => ({ sample_world with prctl := fun _ _ _ => -22 } : World).prctl
          KERNEL_SU_OPTION c.1 c.2) = [-22] ∧
    (main { sample_world with prctl := fun _ _ _ => -22 }
      [lit "ksu_susfs", lit "add_sus_path", lit "/x"]).exit = -22 ∧
    exit_code (main { sample_world with prctl := fun _ _ _ => -22 }
      [lit "ksu_susfs", lit "add_sus_path", lit "/x"]) = 234 := by
  decide

/-- C8: with a token other than "0" and "1", `enable_log` prints the usage
text, submits nothing and returns 1, and `sus_su` prints the usage text and
submits nothing too, but returns the initial value -1 of `error`, not 1. -/
theorem bad_switch_token_exit (w : World) (prog tok : List Nat) (hroot : w.uid = 0)
    (hbad : cstr tok ≠ lit "0" ∧ cstr tok ≠ lit "1") :
    main w [prog, lit "enable_log", tok] = ⟨1, [Event.usage]⟩ ∧
    main w [prog, lit "sus_su", tok] = ⟨-1, [Event.usage]⟩ := by
  constructor
  · rw [main_enable_log w [prog, lit "enable_log", tok] hroot rfl
      (cstr_arg_one _ _ _ (by decide))]
    simp only [enable_log, arg, List.getD_cons_succ, List.getD_cons_zero, mode_token_iff,
      if_pos hbad, print_help]
  · rw [main_sus_su w [prog, lit "sus_su", tok] hroot rfl (cstr_arg_one _ _ _ (by decide))]
    simp only [sus_su, arg, List.getD_cons_succ, List.getD_cons_zero, mode_token_iff,
      if_pos hbad, print_help]

theorem bad_switch_token_exit_witness :
    main sample_world [lit "ksu_susfs", lit "enable_log", lit "2"] = ⟨1, [Event.usage]⟩ ∧
    main sample_world [lit "ksu_susfs", lit "sus_su", lit "2"] = ⟨-1, [Event.usage]⟩ :=
  bad_switch_token_exit sample_world (lit "ksu_susfs") (lit "2") rfl (by decide)

/-- C9: the steps of `sus_su 1` run in the order submit, `mknod`, write of the
configuration file, permission pipeline, and stop at the first failure: a
non-zero channel status is returned as it is and nothing else is done; a
failing `mknod` returns 1 before the file is opened; a failing `fopen` returns
1 before the pipeline is run.  The node is made at the driver path the kernel
returned, as a character device with permission bits 0666, with the major
number the kernel returned and minor 0. -/
theorem sus_su_enable_steps (w : World) (prog : List Nat) (hroot : w.uid = 0) :
    (sus_su_status w (sus_su_enable_request w) ≠ 0 →
      (main w [prog, lit "sus_su", lit "1"]).exit = sus_su_status w (sus_su_enable_request w) ∧
      effects (main w [prog, lit "sus_su", lit "1"]) =
        [.prctl KERNEL_SU_OPTION CMD_SUSFS_SUS_SU (.sus_su (sus_su_enable_request w))]) ∧
    (sus_su_status w (sus_su_enable_request w) = 0 →
      w.mknod (cstr (w.kernel_sus_su (sus_su_enable_request w)).drv_path) 0o20666
        ⟨(w.kernel_sus_su (sus_su_enable_request w)).maj_dev_num, 0⟩ < 0 →
      (main w [prog, lit "sus_su", lit "1"]).exit = 1 ∧
      effects (main w [prog, lit "sus_su", lit "1"]) =
        [.prctl KERNEL_SU_OPTION CMD_SUSFS_SUS_SU (.sus_su (sus_su_enable_request w)),
         .mknod (cstr (w.kernel_sus_su (sus_su_enable_request w)).drv_path) 0o20666
           ⟨(w.kernel_sus_su (sus_su_enable_request w)).maj_dev_num, 0⟩]) ∧
    (sus_su_status w (sus_su_enable_request w) = 0 →
      ¬ w.mknod (cstr (w.kernel_sus_su (sus_su_enable_request w)).drv_path) 0o20666
        ⟨(w.kernel_sus_su (sus_su_enable_request w)).maj_dev_num, 0⟩ < 0 →
      w.fopen SUS_SU_CONF_FILE_PATH (lit "w") = false →
      (main w [prog, lit "sus_su", lit "1"]).exit = 1 ∧
      effects (main w [prog, lit "sus_su", lit "1"]) =
        [.prctl KERNEL_SU_OPTION CMD_SUSFS_SUS_SU (.sus_su (sus_su_enable_request w)),
         .mknod (cstr (w.kernel_sus_su (sus_su_enable_request w)).drv_path) 0o20666
           ⟨(w.kernel_sus_su (sus_su_enable_request w)).maj_dev_num, 0⟩,
         .fopen SUS_SU_CONF_FILE_PATH (lit "w")]) ∧
    (sus_su_status w (sus_su_enable_request w) = 0 →
      ¬ w.mknod (cstr (w.kernel_sus_su (sus_su_enable_request w)).drv_path) 0o20666
        ⟨(w.kernel_sus_su (sus_su_enable_request w)).maj_dev_num, 0⟩ < 0 →
      w.fopen SUS_SU_CONF_FILE_PATH (lit "w") = true →
      effects (main w [prog, lit "sus_su", lit "1"]) =
        [.prctl KERNEL_SU_OPTION CMD_SUSFS_SUS_SU (.sus_su (sus_su_enable_request w)),
         .mknod (cstr (w.kernel_sus_su (sus_su_enable_request w)).drv_path) 0o20666
           ⟨(w.kernel_sus_su (sus_su_enable_request w)).maj_dev_num, 0⟩,
         .fopen SUS_SU_CONF_FILE_PATH (lit "w"),
         .fputs (cstr (w.kernel_sus_su (sus_su_enable_request w)).drv_path),
         .fclose,
         .system chmod_pipeline]) ∧
    (0o20666 &&& 0o7777 = 0o666 ∧ 0o20666 &&& 0o170000 = S_IFCHR) := by
  rw [main_sus_su w [prog, lit "sus_su", lit "1"] hroot rfl (cstr_arg_one _ _ _ (by decide))]
  have hb : ¬ (strcmp (lit "1") (lit "0") ≠ 0 ∧ strcmp (lit "1") (lit "1") ≠ 0) := by decide
  have h1 : strcmp (lit "1") (lit "1") = 0 := by decide
  have hmode : S_IFCHR ||| 0o666 = 0o20666 := by decide
  simp only [sus_su, arg, List.getD_cons_succ, List.getD_cons_zero, if_neg hb, if_pos h1,
    makedev, hmode]
  simp only [sus_su_status, sus_su_enable_request]
  refine ⟨?_, ?_, ?_, ?_, by decide⟩
  · intro hst
    rw [if_pos hst]
    refine ⟨rfl, ?_⟩
    unfold effects PRT_MSG_IF_OPERATION_NOT_SUPPORTED
    split <;> simp [log]
  · intro hst hnod
    have hst' : ¬ (w.prctl KERNEL_SU_OPTION CMD_SUSFS_SUS_SU
        (.sus_su ⟨true, uninit_bytes w 256, -1⟩) ≠ 0) := by simp [hst]
    rw [if_neg hst', if_pos hnod]
    refine ⟨rfl, ?_⟩
    unfold effects PRT_MSG_IF_OPERATION_NOT_SUPPORTED
    split <;> simp [log]
  · intro hst hnod hfo
    have hst' : ¬ (w.prctl KERNEL_SU_OPTION CMD_SUSFS_SUS_SU
        (.sus_su ⟨true, uninit_bytes w 256, -1⟩) ≠ 0) := by simp [hst]
    rw [if_neg hst', if_neg hnod]
    rw [hfo, if_pos (by simp)]
    refine ⟨rfl, ?_⟩
    unfold effects PRT_MSG_IF_OPERATION_NOT_SUPPORTED
    split <;> simp [log]
  · intro hst hnod hfo
    have hst' : ¬ (w.prctl KERNEL_SU_OPTION CMD_SUSFS_SUS_SU
        (.sus_su ⟨true, uninit_bytes w 256, -1⟩) ≠ 0) := by simp [hst]
    rw [if_neg hst', if_neg hnod]
    rw [hfo, if_neg (by simp)]
    unfold effects PRT_MSG_IF_OPERATION_NOT_SUPPORTED
    split <;> split <;> simp [log]

theorem sus_su_enable_steps_witness :
    effects (main sample_world [lit "ksu_susfs", lit "sus_su", lit "1"]) =
      [.prctl KERNEL_SU_OPTION CMD_SUSFS_SUS_SU (.sus_su (sus_su_enable_request sample_world)),
       .mknod (lit "/dev/abc") 0o20666 ⟨240, 0⟩,
       .fopen SUS_SU_CONF_FILE_PATH (lit "w"),
       .fputs (lit "/dev/abc"),
       .fclose,
       .system chmod_pipeline] :=
  (sus_su_enable_steps sample_world (lit "ksu_susfs") rfl).2.2.2.1
    (by decide) (by decide) (by decide)

/-- C10: on the disable path of `sus_su`, when the kernel request succeeded
(status 0) and the pipeline that removes the device node fails, `main` returns
0, not 1; on the enable path each failing local step (`mknod`, `fopen`, the
permission pipeline) returns 1. -/
theorem sus_su_local_failure_exit (w : World) (prog : List Nat) (hroot : w.uid = 0) :
    (sus_su_status w (sus_su_disable_request w) = 0 → w.system rm_pipeline ≠ 0 →
      (main w [prog, lit "sus_su", lit "0"]).exit = 0 ∧
      Event.system rm_pipeline ∈ (main w [prog, lit "sus_su", lit "0"]).trace) ∧
    (sus_su_status w (sus_su_enable_request w) = 0 →
      (w.mknod (cstr (w.kernel_sus_su (sus_su_enable_request w)).drv_path) 0o20666
          ⟨(w.kernel_sus_su (sus_su_enable_request w)).maj_dev_num, 0⟩ < 0 ∨
        w.fopen SUS_SU_CONF_FILE_PATH (lit "w") = false ∨
        w.system chmod_pipeline ≠ 0) →
      (main w [prog, lit "sus_su", lit "1"]).exit = 1) := by
  constructor
  · intro hst hrm
    rw [main_sus_su w [prog, lit "sus_su", lit "0"] hroot rfl (cstr_arg_one _ _ _ (by decide))]
    have hb : ¬ (strcmp (lit "0") (lit "0") ≠ 0 ∧ strcmp (lit "0") (lit "1") ≠ 0) := by decide
    have h1 : ¬ strcmp (lit "0") (lit "1") = 0 := by decide
    simp only [sus_su_status, sus_su_disable_request] at hst
    have hst' : ¬ (w.prctl KERNEL_SU_OPTION CMD_SUSFS_SUS_SU
        (.sus_su ⟨false, uninit_bytes w 256, w.stack_int⟩) ≠ 0) := by simp [hst]
    simp only [sus_su, arg, List.getD_cons_succ, List.getD_cons_zero, if_neg hb, if_neg h1]
    rw [if_neg hst', if_pos hrm]
    exact ⟨hst, by simp⟩
  · intro hst hfail
    rw [main_sus_su w [prog, lit "sus_su", lit "1"] hroot rfl (cstr_arg_one _ _ _ (by decide))]
    have hb : ¬ (strcmp (lit "1") (lit "0") ≠ 0 ∧ strcmp (lit "1") (lit "1") ≠ 0) := by decide
    have h1 : strcmp (lit "1") (lit "1") = 0 := by decide
    have hmode : S_IFCHR ||| 0o666 = 0o20666 := by decide
    simp only [sus_su_status, sus_su_enable_request] at hst hfail
    have hst' : ¬ (w.prctl KERNEL_SU_OPTION CMD_SUSFS_SUS_SU
        (.sus_su ⟨true, uninit_bytes w 256, -1⟩) ≠ 0) := by simp [hst]
    simp only [sus_su, arg, List.getD_cons_succ, List.getD_cons_zero, if_neg hb, if_pos h1,
      makedev, hmode]
    rw [if_neg hst']
    split
    · rfl
    · split
      · rfl
      · split
        · rfl
        · rename_i hn hf hs
          rcases hfail with h | h | h
          · exact absurd h hn
          · simp [h] at hf
          · exact absurd h hs

theorem sus_su_local_failure_exit_witness :
    (main { sample_world with system := fun _ => 1 }
      [lit "ksu_susfs", lit "sus_su", lit "0"]).exit = 0 ∧
    Event.system rm_pipeline ∈ (main { sample_world with system := fun _ => 1 }
      [lit "ksu_susfs", lit "sus_su", lit "0"]).trace :=
  (sus_su_local_failure_exit { sample_world with system := fun _ => 1 } (lit "ksu_susfs") rfl).1
    (by decide) (by decide)

/-! ## Lemmas on the field blocks of `add_sus_kstat_statically` -/

theorem cstr_default : cstr (lit "default") = lit "default" := by decide

theorem field_block_eq_some (tok : List Nat) (parse : List Nat → Int × List Nat)
    (store : Stat → Int → Stat) (sb sb' : Stat)
    (h : field_block tok parse store sb = some sb') :
    sb' = if cstr tok = lit "default" then sb else store sb (parse tok).1 := by
  unfold field_block at h
  by_cases hd : cstr tok = lit "default"
  · have hs : ¬ strcmp tok (lit "default") ≠ 0 := by
      rw [strcmp_ne_zero, cstr_default]
      exact not_not.mpr hd
    rw [if_neg hs] at h
    rw [if_pos hd]
    exact (Option.some.inj h).symm
  · have hs : strcmp tok (lit "default") ≠ 0 := by
      rw [strcmp_ne_zero, cstr_default]
      exact hd
    rw [if_pos hs] at h
    rw [if_neg hd]
    split at h
    · exact absurd h (by simp)
    · exact (Option.some.inj h).symm

theorem kstat_field_blocks_fields (argv : List (List Nat)) (sb sb' : Stat)
    (h : kstat_field_blocks argv sb = some sb') :
    sb'.st_ino = (if cstr (arg argv 3) = lit "default" then sb.st_ino
      else (strtoul (arg argv 3)).1) ∧
    sb'.st_dev = (if cstr (arg argv 4) = lit "default" then sb.st_dev
      else (strtoul (arg argv 4)).1) ∧
    sb'.st_nlink = (if cstr (arg argv 5) = lit "default" then sb.st_nlink
      else to_unsigned 32 (strtoul (arg argv 5)).1) ∧
    sb'.st_size = (if cstr (arg argv 6) = lit "default" then sb.st_size
      else to_signed 64 (strtoul (arg argv 6)).1) ∧
    sb'.st_atime = (if cstr (arg argv 7) = lit "default" then sb.st_atime
      else to_signed 64 (to_unsigned 64 (strtol (arg argv 7)).1)) ∧
    sb'.st_atime_nsec = (if cstr (arg argv 8) = lit "default" then sb.st_atime_nsec
      else to_signed 64 (strtoul (arg argv 8)).1) ∧
    sb'.st_mtime = (if cstr (arg argv 9) = lit "default" then sb.st_mtime
      else to_signed 64 (to_unsigned 64 (strtol (arg argv 9)).1)) ∧
    sb'.st_mtime_nsec = (if cstr (arg argv 10) = lit "default" then sb.st_mtime_nsec
      else to_signed 64 (strtoul (arg argv 10)).1) ∧
    sb'.st_ctime = (if cstr (arg argv 11) = lit "default" then sb.st_ctime
      else to_signed 64 (to_unsigned 64 (strtol (arg argv 11)).1)) ∧
    sb'.st_ctime_nsec = (if cstr (arg argv 12) = lit "default" then sb.st_ctime_nsec
      else to_signed 64 (strtoul (arg argv 12)).1) ∧
    sb'.st_blocks = (if cstr (arg argv 13) = lit "default" then sb.st_blocks
      else to_signed 64 (strtoul (arg argv 13)).1) ∧
    sb'.st_blksize = (if cstr (arg argv 14) = lit "default" then sb.st_blksize
      else to_signed 32 (strtoul (arg argv 14)).1) := by
  simp only [kstat_field_blocks, bind, Option.bind_eq_some] at h
  obtain ⟨s1, h1, s2, h2, s3, h3, s4, h4, s5, h5, s6, h6, s7, h7, s8, h8, s9, h9, s10, h10,
    s11, h11, h12⟩ := h
  have e1 := field_block_eq_some _ _ _ _ _ h1
  have e2 := field_block_eq_some _ _ _ _ _ h2
  have e3 := field_block_eq_some _ _ _ _ _ h3
  have e4 := field_block_eq_some _ _ _ _ _ h4
  have e5 := field_block_eq_some _ _ _ _ _ h5
  have e6 := field_block_eq_some _ _ _ _ _ h6
  have e7 := field_block_eq_some _ _ _ _ _ h7
  have e8 := field_block_eq_some _ _ _ _ _ h8
  have e9 := field_block_eq_some _ _ _ _ _ h9
  have e10 := field_block_eq_some _ _ _ _ _ h10
  have e11 := field_block_eq_some _ _ _ _ _ h11
  have e12 := field_block_eq_some _ _ _ _ _ h12
  clear h1 h2 h3 h4 h5 h6 h7 h8 h9 h10 h11 h12
  subst e1 e2 e3 e4 e5 e6 e7 e8 e9 e10 e11 e12
  refine ⟨?_, ?_, ?_, ?_, ?_, ?_, ?_, ?_, ?_, ?_, ?_, ?_⟩ <;>
    simp only [apply_ite Stat.st_ino, apply_ite Stat.st_dev, apply_ite Stat.st_nlink,
      apply_ite Stat.st_size, apply_ite Stat.st_atime, apply_ite Stat.st_atime_nsec,
      apply_ite Stat.st_mtime, apply_ite Stat.st_mtime_nsec, apply_ite Stat.st_ctime,
      apply_ite Stat.st_ctime_nsec, apply_ite Stat.st_blocks, apply_ite Stat.st_blksize,
      store_ino, store_dev, store_nlink, store_size, store_atime, store_atime_nsec,
      store_mtime, store_mtime_nsec, store_ctime, store_ctime_nsec, store_blocks,
      store_blksize, ite_self]

theorem isNumeric_ne_default (tok : List Nat) (h : isNumeric tok = 1) :
    cstr tok ≠ lit "default" := by
  obtain ⟨_, _, _, _, hall⟩ := isNumeric_head tok h
  intro hd
  rw [hd] at hall
  exact absurd (hall 100 (by decide)) (by decide)

theorem strtoul_value (tok : List Nat) (v : Nat) (h : isNumeric tok = 1)
    (hv : decimal_value (cstr tok) = v) (hb : v < 2 ^ 64) : (strtoul tok).1 = (v : Int) := by
  rw [strtoul_numeric tok h, hv]
  simp only [ULONG_MAX]
  rw [if_neg]
  have : (v : Int) < 2 ^ 64 := by exact_mod_cast hb
  omega

theorem strtol_value (tok : List Nat) (v : Nat) (h : isNumeric tok = 1)
    (hv : decimal_value (cstr tok) = v) (hb : v < 2 ^ 63) : (strtol tok).1 = (v : Int) := by
  rw [strtol_numeric tok h, hv]
  simp only [LONG_MAX]
  rw [if_neg]
  have : (v : Int) < 2 ^ 63 := by exact_mod_cast hb
  omega

theorem to_signed_of_range (x : Int) (w : Nat) (hw : 0 < w) (h0 : -(2 ^ (w - 1)) ≤ x)
    (h1 : x < 2 ^ (w - 1)) : to_signed w x = x := by
  unfold to_signed
  have hp : (2 : Int) ^ w = 2 * 2 ^ (w - 1) := by
    rw [← pow_succ']
    congr 1
    omega
  rw [hp]
  have : (x + 2 ^ (w - 1)) % (2 * 2 ^ (w - 1)) = x + 2 ^ (w - 1) :=
    Int.emod_eq_of_lt (by omega) (by omega)
  omega

/-- One field of `add_sus_kstat_statically`, from what its block leaves in the
stat buffer to what the claim says of the submitted value. -/
theorem field_spec_of_block (tok : List Nat) (live : Int) (bound : Nat) (spoofed : Int)
    (conv : Int → Int) (parse : List Nat → Int × List Nat) (keep : Int → Int)
    (hsp : spoofed = keep (if cstr tok = lit "default" then live else conv (parse tok).1))
    (hlive : keep live = live)
    (hval : ∀ v : Nat, isNumeric tok = 1 → decimal_value (cstr tok) = v → v < bound →
      keep (conv (parse tok).1) = v) :
    field_spec tok live bound spoofed := by
  constructor
  · intro hd
    rw [hsp, if_pos hd, hlive]
  · intro v hn hv hb
    rw [hsp, if_neg (isNumeric_ne_default tok hn)]
    exact hval v hn hv hb

theorem to_unsigned_to_signed_64 (v : Nat) (h : v < 2 ^ 64) :
    to_unsigned 64 (to_signed 64 (v : Int)) = v := by
  have h' : (v : Int) < 18446744073709551616 := by exact_mod_cast h
  simp only [to_unsigned, to_signed]
  norm_num
  omega

theorem to_unsigned_to_signed_32 (v : Nat) (h : v < 2 ^ 31) :
    to_unsigned 64 (to_signed 32 (v : Int)) = v := by
  have h' : (v : Int) < 2147483648 := by exact_mod_cast h
  simp only [to_unsigned, to_signed]
  norm_num
  omega

/-- C1 (amended): for `add_sus_kstat_statically` on a path whose stat succeeds
and whose twelve field tokens are all accepted, one record is submitted, and
for each of the twelve fields, in the order of the arguments: with the token
`default` the spoofed field is the live stat value, and with a token of
decimal digits whose value fits the field (below 2^64 for ino, dev and blocks,
below 2^32 for nlink, below 2^63 for size and the six time fields, below 2^31
for blksize) the spoofed field is that value. -/
theorem kstat_statically_fields (w : World)
    (prog path ino dev nlink size atime atime_nsec mtime mtime_nsec ctime ctime_nsec
      blocks blksize : List Nat) (sb : Stat)
    (hroot : w.uid = 0) (hstat : w.stat (cstr path) = some sb) (hwf : sb.wf)
    (hacc : kstat_field_blocks [prog, lit "add_sus_kstat_statically", path, ino, dev, nlink,
      size, atime, atime_nsec, mtime, mtime_nsec, ctime, ctime_nsec, blocks, blksize] sb
        ≠ none) :
    ∃ info, submissions (main w [prog, lit "add_sus_kstat_statically", path, ino, dev, nlink,
        size, atime, atime_nsec, mtime, mtime_nsec, ctime, ctime_nsec, blocks, blksize]) =
        [(CMD_SUSFS_ADD_SUS_KSTAT_STATICALLY, .sus_kstat info)] ∧
      field_spec ino sb.st_ino (2 ^ 64) info.spoofed_ino ∧
      field_spec dev sb.st_dev (2 ^ 64) info.spoofed_dev ∧
      field_spec nlink sb.st_nlink (2 ^ 32) info.spoofed_nlink ∧
      field_spec size sb.st_size (2 ^ 63) info.spoofed_size ∧
      field_spec atime sb.st_atime (2 ^ 63) info.spoofed_atime_tv_sec ∧
      field_spec atime_nsec sb.st_atime_nsec (2 ^ 63) info.spoofed_atime_tv_nsec ∧
      field_spec mtime sb.st_mtime (2 ^ 63) info.spoofed_mtime_tv_sec ∧
      field_spec mtime_nsec sb.st_mtime_nsec (2 ^ 63) info.spoofed_mtime_tv_nsec ∧
      field_spec ctime sb.st_ctime (2 ^ 63) info.spoofed_ctime_tv_sec ∧
      field_spec ctime_nsec sb.st_ctime_nsec (2 ^ 63) info.spoofed_ctime_tv_nsec ∧
      field_spec blocks sb.st_blocks (2 ^ 64) info.spoofed_blocks ∧
      field_spec blksize sb.st_blksize (2 ^ 31) info.spoofed_blksize := by
  obtain ⟨sb', hsb'⟩ := Option.ne_none_iff_exists'.mp hacc
  obtain ⟨f1, f2, f3, f4, f5, f6, f7, f8, f9, f10, f11, f12⟩ :=
    kstat_field_blocks_fields _ sb sb' hsb'
  simp only [arg, List.getD_cons_succ, List.getD_cons_zero] at f1 f2 f3 f4 f5 f6
  simp only [arg, List.getD_cons_succ, List.getD_cons_zero] at f7 f8 f9 f10 f11 f12
  obtain ⟨-, -, -, -, -, -, -, -, -, -, ⟨hk0, hk1⟩, ⟨hb0, hb1⟩⟩ := hwf
  rw [main_add_sus_kstat_statically w [prog, lit "add_sus_kstat_statically", path, ino, dev,
    nlink, size, atime, atime_nsec, mtime, mtime_nsec, ctime, ctime_nsec, blocks, blksize]
    hroot rfl (cstr_arg_one _ _ _ (by decide))]
  simp only [add_sus_kstat_statically, get_file_stat, arg, List.getD_cons_succ,
    List.getD_cons_zero, hstat, hsb', submissions_not_supported]
  refine ⟨_, rfl, ?_⟩
  simp only [copy_stat_to_sus_kstat]
  have ul : ∀ (tok : List Nat) (v : Nat), isNumeric tok = 1 → decimal_value (cstr tok) = v →
      v < 2 ^ 64 → (strtoul tok).1 = (v : Int) := strtoul_value
  have s64 : ∀ v : Nat, v < 2 ^ 63 → to_signed 64 (v : Int) = v := by
    intro v hv
    have : (v : Int) < 2 ^ 63 := by exact_mod_cast hv
    exact to_signed_of_range _ 64 (by norm_num) (by norm_num; omega) (by norm_num; omega)
  have u64 : ∀ v : Nat, v < 2 ^ 64 → to_unsigned 64 (v : Int) = v := by
    intro v hv
    have : (v : Int) < 2 ^ 64 := by exact_mod_cast hv
    exact to_unsigned_of_range 64 _ (by omega) this
  refine ⟨?_, ?_, ?_, ?_, ?_, ?_, ?_, ?_, ?_, ?_, ?_, ?_⟩
  · exact field_spec_of_block ino _ _ _ id strtoul id f1 rfl
      (fun v hn hv hb => ul ino v hn hv hb)
  · exact field_spec_of_block dev _ _ _ id strtoul id f2 rfl
      (fun v hn hv hb => ul dev v hn hv hb)
  · refine field_spec_of_block nlink _ _ _ (to_unsigned 32) strtoul id f3 rfl ?_
    intro v hn hv hb
    simp only [id_eq]
    rw [ul nlink v hn hv (lt_trans hb (by norm_num))]
    have : (v : Int) < 2 ^ 32 := by exact_mod_cast hb
    exact to_unsigned_of_range 32 _ (by omega) this
  · refine field_spec_of_block size _ _ _ (to_signed 64) strtoul id f4 rfl ?_
    intro v hn hv hb
    simp only [id_eq]
    rw [ul size v hn hv (lt_trans hb (by norm_num))]
    exact s64 v hb
  · refine field_spec_of_block atime _ _ _ (fun x => to_signed 64 (to_unsigned 64 x)) strtol id
      f5 rfl ?_
    intro v hn hv hb
    simp only [id_eq]
    rw [strtol_value atime v hn hv hb, u64 v (lt_trans hb (by norm_num))]
    exact s64 v hb
  · refine field_spec_of_block atime_nsec _ _ _ (to_signed 64) strtoul id f6 rfl ?_
    intro v hn hv hb
    simp only [id_eq]
    rw [ul atime_nsec v hn hv (lt_trans hb (by norm_num))]
    exact s64 v hb
  · refine field_spec_of_block mtime _ _ _ (fun x => to_signed 64 (to_unsigned 64 x)) strtol id
      f7 rfl ?_
    intro v hn hv hb
    simp only [id_eq]
    rw [strtol_value mtime v hn hv hb, u64 v (lt_trans hb (by norm_num))]
    exact s64 v hb
  · refine field_spec_of_block mtime_nsec _ _ _ (to_signed 64) strtoul id f8 rfl ?_
    intro v hn hv hb
    simp only [id_eq]
    rw [ul mtime_nsec v hn hv (lt_trans hb (by norm_num))]
    exact s64 v hb
  · refine field_spec_of_block ctime _ _ _ (fun x => to_signed 64 (to_unsigned 64 x)) strtol id
      f9 rfl ?_
    intro v hn hv hb
    simp only [id_eq]
    rw [strtol_value ctime v hn hv hb, u64 v (lt_trans hb (by norm_num))]
    exact s64 v hb
  · refine field_spec_of_block ctime_nsec _ _ _ (to_signed 64) strtoul id f10 rfl ?_
    intro v hn hv hb
    simp only [id_eq]
    rw [ul ctime_nsec v hn hv (lt_trans hb (by norm_num))]
    exact s64 v hb
  · have hlive : to_unsigned 64 sb.st_blocks = sb.st_blocks :=
      to_unsigned_of_range 64 _ hb0 (lt_trans hb1 (by norm_num))
    refine field_spec_of_block blocks _ _ _ (to_signed 64) strtoul (to_unsigned 64)
      (congrArg (to_unsigned 64) f11) hlive ?_
    intro v hn hv hb
    rw [ul blocks v hn hv hb]
    exact to_unsigned_to_signed_64 v hb
  · have hlive : to_unsigned 64 sb.st_blksize = sb.st_blksize :=
      to_unsigned_of_range 64 _ hk0 (lt_trans hk1 (by norm_num))
    refine field_spec_of_block blksize _ _ _ (to_signed 32) strtoul (to_unsigned 64)
      (congrArg (to_unsigned 64) f12) hlive ?_
    intro v hn hv hb
    rw [ul blksize v hn hv (lt_trans hb (by norm_num))]
    exact to_unsigned_to_signed_32 v hb

theorem kstat_statically_fields_witness :
    ∃ info, submissions (main sample_world [lit "ksu_susfs", lit "add_sus_kstat_statically",
        lit "/x", lit "1234", lit "default", lit "2", lit "default", lit "1712592355", lit "0",
        lit "default", lit "default", lit "default", lit "default", lit "16", lit "512"]) =
        [(CMD_SUSFS_ADD_SUS_KSTAT_STATICALLY, .sus_kstat info)] ∧
      info.spoofed_ino = 1234 ∧ info.spoofed_dev = 200 ∧ info.spoofed_blocks = 16 := by
  obtain ⟨info, hsub, hino, hdev, _, _, _, _, _, _, _, _, hblocks, _⟩ :=
    kstat_statically_fields sample_world (lit "ksu_susfs") (lit "/x") (lit "1234")
      (lit "default") (lit "2") (lit "default") (lit "1712592355") (lit "0") (lit "default")
      (lit "default") (lit "default") (lit "default") (lit "16") (lit "512") sample_stat
      rfl (by decide) (by decide) (by decide)
  exact ⟨info, hsub, hino.2 1234 (by decide) (by decide) (by decide), hdev.1 (by decide),
    hblocks.2 16 (by decide) (by decide) (by decide)⟩

/-- C1 as stated fails: the token `4294967296` for nlink is a valid base-10
integer and all twelve tokens are accepted, yet the submitted `spoofed_nlink`,
an `unsigned int`, is 0. -/
theorem kstat_statically_nlink_wraps :
    isNumeric (lit "4294967296") = 1 ∧ decimal_value (cstr (lit "4294967296")) = 4294967296 ∧
    (submitted_kstat (main sample_world [lit "ksu_susfs", lit "add_sus_kstat_statically",
        lit "/x", lit "default", lit "default", lit "4294967296", lit "default", lit "default",
        lit "default", lit "default", lit "default", lit "default", lit "default",
        lit "default", lit "default"])).map (fun info => info.spoofed_nlink) = some 0 := by
  decide

/-- C2: the empty token for ino is neither `default` nor a number, yet
`add_sus_kstat_statically` accepts it: no usage text is printed, one record is
submitted with `spoofed_ino` 0, and `main` returns the status of the channel,
here 0. -/
theorem kstat_statically_accepts_empty_token :
    cstr (lit "") ≠ lit "default" ∧ isNumeric (lit "") = 0 ∧
    (main sample_world [lit "ksu_susfs", lit "add_sus_kstat_statically",
        lit "/x", lit "", lit "default", lit "default", lit "default", lit "default",
        lit "default", lit "default", lit "default", lit "default", lit "default",
        lit "default", lit "default"]).exit = 0 ∧
    Event.usage ∉ (main sample_world [lit "ksu_susfs", lit "add_sus_kstat_statically",
        lit "/x", lit "", lit "default", lit "default", lit "default", lit "default",
        lit "default", lit "default", lit "default", lit "default", lit "default",
        lit "default", lit "default"]).trace ∧
    (submitted_kstat (main sample_world [lit "ksu_susfs", lit "add_sus_kstat_statically",
        lit "/x", lit "", lit "default", lit "default", lit "default", lit "default",
        lit "default", lit "default", lit "default", lit "default", lit "default",
        lit "default", lit "default"])).map (fun info => info.spoofed_ino) = some 0 := by
  decide

/-- C14: every `add_sus_kstat_statically` that reaches the submission (the
stat succeeds and no field block rejects its token) submits a record whose
target inode is the inode found by `stat`, whether the ino token is `default`
or not, whose is-static flag is true, and whose spoofed inode is the inode
found by `stat` for the token `default` and the value parsed from the token
otherwise. -/
theorem kstat_statically_target_ino (w : World) (prog path : List Nat)
    (toks : List (List Nat)) (sb : Stat) (hroot : w.uid = 0) (hlen : toks.length = 12)
    (hstat : w.stat (cstr path) = some sb)
    (hacc : kstat_field_blocks (prog :: lit "add_sus_kstat_statically" :: path :: toks) sb
      ≠ none) :
    ∃ info, submissions (main w (prog :: lit "add_sus_kstat_statically" :: path :: toks)) =
        [(CMD_SUSFS_ADD_SUS_KSTAT_STATICALLY, .sus_kstat info)] ∧
      info.target_ino = sb.st_ino ∧ info.is_statically = true ∧
      info.spoofed_ino =
        if cstr (toks.getD 0 []) = lit "default" then sb.st_ino
        else (strtoul (toks.getD 0 [])).1 := by
  obtain ⟨sb', hsb'⟩ := Option.ne_none_iff_exists'.mp hacc
  have hino := (kstat_field_blocks_fields _ sb sb' hsb').1
  simp only [arg, List.getD_cons_succ] at hino
  rw [main_add_sus_kstat_statically w (prog :: lit "add_sus_kstat_statically" :: path :: toks)
    hroot (by simp [hlen]) (cstr_arg_one _ _ _ (by decide))]
  simp only [add_sus_kstat_statically, get_file_stat, arg, List.getD_cons_succ,
    List.getD_cons_zero, hstat, hsb', submissions_not_supported]
  exact ⟨_, rfl, rfl, rfl, hino⟩

theorem kstat_statically_target_ino_witness :
    ∃ info, submissions (main sample_world (lit "ksu_susfs" :: lit "add_sus_kstat_statically" ::
        lit "/x" :: lit "1234" :: List.replicate 11 (lit "default"))) =
        [(CMD_SUSFS_ADD_SUS_KSTAT_STATICALLY, .sus_kstat info)] ∧
      info.target_ino = 100 ∧ info.is_statically = true ∧ info.spoofed_ino = 1234 := by
  obtain ⟨info, h1, h2, h3, h4⟩ :=
    kstat_statically_target_ino sample_world (lit "ksu_susfs") (lit "/x")
      (lit "1234" :: List.replicate 11 (lit "default")) sample_stat rfl rfl (by decide)
      (by decide)
  refine ⟨info, h1, h2, h3, ?_⟩
  rw [h4]
  decide

/-- C15: for every resolvable path, `add_sus_kstat` submits a record whose
is-static flag is false, whose target inode is the inode found by `stat`, and
whose twelve spoofed fields are the values found by `stat`. -/
theorem add_sus_kstat_record (w : World) (prog path : List Nat) (sb : Stat)
    (hroot : w.uid = 0) (hstat : w.stat (cstr path) = some sb) (hwf : sb.wf) :
    ∃ info, submissions (main w [prog, lit "add_sus_kstat", path]) =
        [(CMD_SUSFS_ADD_SUS_KSTAT, .sus_kstat info)] ∧
      info.is_statically = false ∧ info.target_ino = sb.st_ino ∧
      info.spoofed_ino = sb.st_ino ∧ info.spoofed_dev = sb.st_dev ∧
      info.spoofed_nlink = sb.st_nlink ∧ info.spoofed_size = sb.st_size ∧
      info.spoofed_atime_tv_sec = sb.st_atime ∧ info.spoofed_mtime_tv_sec = sb.st_mtime ∧
      info.spoofed_ctime_tv_sec = sb.st_ctime ∧
      info.spoofed_atime_tv_nsec = sb.st_atime_nsec ∧
      info.spoofed_mtime_tv_nsec = sb.st_mtime_nsec ∧
      info.spoofed_ctime_tv_nsec = sb.st_ctime_nsec ∧
      info.spoofed_blksize = sb.st_blksize ∧ info.spoofed_blocks = sb.st_blocks := by
  obtain ⟨-, -, -, -, -, -, -, -, -, -, ⟨hk0, hk1⟩, ⟨hb0, hb1⟩⟩ := hwf
  have hk : to_unsigned 64 sb.st_blksize = sb.st_blksize :=
    to_unsigned_of_range 64 _ hk0 (lt_trans hk1 (by norm_num))
  have hb : to_unsigned 64 sb.st_blocks = sb.st_blocks :=
    to_unsigned_of_range 64 _ hb0 (lt_trans hb1 (by norm_num))
  rw [main_add_sus_kstat w [prog, lit "add_sus_kstat", path] hroot rfl
    (cstr_arg_one _ _ _ (by decide))]
  simp only [add_sus_kstat, arg, List.getD_cons_succ, List.getD_cons_zero, get_file_stat,
    hstat, submissions_not_supported]
  exact ⟨_, rfl, rfl, rfl, rfl, rfl, rfl, rfl, rfl, rfl, rfl, rfl, rfl, rfl, hk, hb⟩

theorem add_sus_kstat_record_witness :
    ∃ info, submissions (main sample_world [lit "ksu_susfs", lit "add_sus_kstat", lit "/x"]) =
        [(CMD_SUSFS_ADD_SUS_KSTAT, .sus_kstat info)] ∧
      info.is_statically = false ∧ info.target_ino = 100 ∧ info.spoofed_blocks = 8 := by
  obtain ⟨info, h, h1, h2, _, _, _, _, _, _, _, _, _, _, _, h3⟩ :=
    add_sus_kstat_record sample_world (lit "ksu_susfs") (lit "/x") sample_stat rfl
      (by decide) (by decide)
  exact ⟨info, h, h1, h2, h3⟩

/-- C20: `update_sus_kstat` and `update_sus_kstat_full_clone` submit under the
same opcode 0x55571; for every resolvable path the record of `full_clone` is
the record of `update` with spoofed size and spoofed blocks set to zero; so
for a path whose current size and block count are 0 the two commands make the
same submissions and return the same value. -/
theorem full_clone_is_update_zeroed (w : World) (prog path : List Nat) (sb : Stat)
    (hroot : w.uid = 0) (hstat : w.stat (cstr path) = some sb) :
    CMD_SUSFS_UPDATE_SUS_KSTAT = 0x55571 ∧
    ∃ iu ic,
      submissions (main w [prog, lit "update_sus_kstat", path]) =
        [(CMD_SUSFS_UPDATE_SUS_KSTAT, .sus_kstat iu)] ∧
      submissions (main w [prog, lit "update_sus_kstat_full_clone", path]) =
        [(CMD_SUSFS_UPDATE_SUS_KSTAT, .sus_kstat ic)] ∧
      ic = { iu with spoofed_size := 0, spoofed_blocks := 0 } ∧
      (sb.st_size = 0 → sb.st_blocks = 0 →
        submissions (main w [prog, lit "update_sus_kstat_full_clone", path]) =
          submissions (main w [prog, lit "update_sus_kstat", path]) ∧
        (main w [prog, lit "update_sus_kstat_full_clone", path]).exit =
          (main w [prog, lit "update_sus_kstat", path]).exit) := by
  refine ⟨rfl, ?_⟩
  rw [main_update_sus_kstat w [prog, lit "update_sus_kstat", path] hroot rfl
      (cstr_arg_one _ _ _ (by decide)),
    main_update_sus_kstat_full_clone w [prog, lit "update_sus_kstat_full_clone", path] hroot
      rfl (cstr_arg_one _ _ _ (by decide))]
  simp only [update_sus_kstat, update_sus_kstat_full_clone, arg, List.getD_cons_succ,
    List.getD_cons_zero, get_file_stat, hstat, submissions_not_supported]
  refine ⟨_, _, rfl, rfl, rfl, ?_⟩
  intro hs hb
  have hz : to_unsigned 64 (0 : Int) = 0 := by decide
  rw [hs, hb, hz]
  exact ⟨rfl, rfl⟩

theorem full_clone_is_update_zeroed_witness :
    CMD_SUSFS_UPDATE_SUS_KSTAT = 0x55571 ∧
    ∃ iu ic,
      submissions (main sample_world [lit "ksu_susfs", lit "update_sus_kstat", lit "/x"]) =
        [(CMD_SUSFS_UPDATE_SUS_KSTAT, .sus_kstat iu)] ∧
      submissions (main sample_world
          [lit "ksu_susfs", lit "update_sus_kstat_full_clone", lit "/x"]) =
        [(CMD_SUSFS_UPDATE_SUS_KSTAT, .sus_kstat ic)] ∧
      ic = { iu with spoofed_size := 0, spoofed_blocks := 0 } := by
  obtain ⟨h0, iu, ic, h1, h2, h3, _⟩ :=
    full_clone_is_update_zeroed sample_world (lit "ksu_susfs") (lit "/x") sample_stat rfl
      (by decide)
  exact ⟨h0, iu, ic, h1, h2, h3⟩

/-- C18: when the caller is not root, `main` ends in `pre_check` with status 1
after printing one diagnostic: no `stat`, no submission, no device node, file
or external process; when the caller is root, `pre_check` returns without
doing anything and the result of `main` is that of the chain of commands. -/
theorem guard_runs_first (w : World) (argv : List (List Nat)) :
    (w.uid ≠ 0 →
      main w argv = ⟨1, [log (lit "[-] Must run as root\n")]⟩ ∧
      effects (main w argv) = [] ∧ stat_queries (main w argv) = [] ∧
      submissions (main w argv) = []) ∧
    (w.uid = 0 → pre_check w = none ∧ main w argv = commands w argv) := by
  constructor
  · intro h
    have hm : main w argv = ⟨1, [log (lit "[-] Must run as root\n")]⟩ := by
      simp only [main, pre_check, if_pos h]
    rw [hm]
    exact ⟨rfl, rfl, rfl, rfl⟩
  · intro h
    have hp : pre_check w = none := by
      simp only [pre_check, h, ne_eq, not_true_eq_false, if_false]
    refine ⟨hp, ?_⟩
    simp only [main, hp]

theorem guard_runs_first_witness :
    main { sample_world with uid := 2000 } [lit "ksu_susfs", lit "add_sus_path", lit "/x"] =
      ⟨1, [log (lit "[-] Must run as root\n")]⟩ ∧
    main sample_world [lit "ksu_susfs", lit "add_sus_path", lit "/x"] =
      commands sample_world [lit "ksu_susfs", lit "add_sus_path", lit "/x"] :=
  ⟨((guard_runs_first { sample_world with uid := 2000 }
      [lit "ksu_susfs", lit "add_sus_path", lit "/x"]).1 (by decide)).1,
   ((guard_runs_first sample_world [lit "ksu_susfs", lit "add_sus_path", lit "/x"]).2 rfl).2⟩

/-! ## Lemmas on `strncpy` -/

theorem cstr_ne_zero (m : List Nat) : ∀ c ∈ cstr m, c ≠ 0 := by
  intro c hc
  have := List.mem_takeWhile_imp hc
  simpa using this

theorem cstr_append_zero (l t : List Nat) (hl : ∀ c ∈ l, c ≠ 0) : cstr (l ++ 0 :: t) = l := by
  induction l with
  | nil => simp [cstr]
  | cons a l ih =>
    have ha : a ≠ 0 := hl a (by simp)
    have := ih (fun c hc => hl c (by simp [hc]))
    unfold cstr at this ⊢
    simp [List.takeWhile_cons, ha, this]

theorem cstr_of_nonzero (l : List Nat) (hl : ∀ c ∈ l, c ≠ 0) : cstr l = l := by
  unfold cstr
  rw [List.takeWhile_eq_self_iff]
  intro c hc
  simpa using hl c hc

/-- What `strncpy` leaves in a buffer of `n + 1` bytes when told to copy `n`:
the string cut to `n` bytes, zero bytes up to `n`, and the last byte of the
buffer as it was. -/
theorem strncpy_buffer (dst src : List Nat) (n : Nat) (hdst : dst.length = n + 1) :
    strncpy dst src n =
      (cstr src).take n ++ List.replicate (n - (cstr src).length) 0 ++ dst.drop n := by
  unfold strncpy
  rw [List.take_of_length_le]
  simp only [List.length_append, List.length_take, List.length_replicate, hdst]
  omega

theorem strncpy_length (dst src : List Nat) (n : Nat) (hdst : dst.length = n + 1) :
    (strncpy dst src n).length = n + 1 := by
  rw [strncpy_buffer dst src n hdst]
  simp only [List.length_append, List.length_take, List.length_replicate, List.length_drop,
    hdst]
  omega

/-- The string left by `strncpy` in a buffer whose last byte is zero. -/
theorem cstr_strncpy_zero_last (dst src : List Nat) (n : Nat) (hdst : dst.length = n + 1)
    (hlast : dst.drop n = [0]) : cstr (strncpy dst src n) = (cstr src).take n := by
  rw [strncpy_buffer dst src n hdst, hlast]
  have hnz : ∀ c ∈ (cstr src).take n, c ≠ 0 :=
    fun c hc => cstr_ne_zero src c (List.mem_of_mem_take hc)
  cases hk : n - (cstr src).length with
  | zero =>
    simp only [List.replicate_zero, List.append_nil]
    exact cstr_append_zero _ [] hnz
  | succ k =>
    rw [List.replicate_succ, List.append_assoc, List.cons_append]
    exact cstr_append_zero _ _ hnz

/-- The string left by `strncpy` when the source is shorter than the count:
the source itself, whatever the buffer held. -/
theorem cstr_strncpy_short (dst src : List Nat) (n : Nat) (hdst : dst.length = n + 1)
    (hshort : (cstr src).length < n) : cstr (strncpy dst src n) = cstr src := by
  rw [strncpy_buffer dst src n hdst]
  obtain ⟨k, hk⟩ : ∃ k, n - (cstr src).length = k + 1 := ⟨n - (cstr src).length - 1, by omega⟩
  rw [hk, List.replicate_succ, List.append_assoc, List.cons_append,
    List.take_of_length_le (by omega)]
  exact cstr_append_zero _ _ (cstr_ne_zero src)

/-- C16: for every resolvable path, of any length, `add_sus_path` submits a
record whose target pathname fills its 256 bytes, ends in a zero byte, and
holds as its string the first min(length, 255) bytes of the path argument, and
whose target inode is the inode found by `stat`. -/
theorem add_sus_path_record (w : World) (prog path : List Nat) (sb : Stat)
    (hroot : w.uid = 0) (hstat : w.stat (cstr path) = some sb) :
    ∃ info, submissions (main w [prog, lit "add_sus_path", path]) =
        [(CMD_SUSFS_ADD_SUS_PATH, .sus_path info)] ∧
      info.target_ino = sb.st_ino ∧
      info.target_pathname.length = 256 ∧
      info.target_pathname.drop 255 = [0] ∧
      cstr info.target_pathname = (cstr path).take 255 ∧
      (cstr info.target_pathname).length = min (cstr path).length 255 := by
  rw [main_add_sus_path w [prog, lit "add_sus_path", path] hroot rfl
    (cstr_arg_one _ _ _ (by decide))]
  simp only [add_sus_path, arg, List.getD_cons_succ, List.getD_cons_zero, get_file_stat,
    hstat, submissions_not_supported]
  have hlen : (List.replicate SUSFS_MAX_LEN_PATHNAME 0 : List Nat).length
      = (SUSFS_MAX_LEN_PATHNAME - 1) + 1 := by
    simp [SUSFS_MAX_LEN_PATHNAME]
  have hlast : (List.replicate SUSFS_MAX_LEN_PATHNAME 0 : List Nat).drop
      (SUSFS_MAX_LEN_PATHNAME - 1) = [0] := by
    simp [SUSFS_MAX_LEN_PATHNAME]
  have hc := cstr_strncpy_zero_last _ path _ hlen hlast
  have hl := strncpy_length _ path _ hlen
  refine ⟨_, rfl, rfl, hl, ?_, hc, ?_⟩
  · rw [strncpy_buffer _ path _ hlen, hlast]
    rw [List.drop_append_of_le_length (by
      simp only [List.length_append, List.length_take, List.length_replicate,
        SUSFS_MAX_LEN_PATHNAME]
      omega)]
    rw [List.drop_of_length_le (by
      simp only [List.length_append, List.length_take, List.length_replicate,
        SUSFS_MAX_LEN_PATHNAME]
      omega)]
    rfl
  · rw [hc, List.length_take]
    simp only [SUSFS_MAX_LEN_PATHNAME]
    omega

theorem add_sus_path_record_witness :
    ∃ info, submissions (main sample_world [lit "ksu_susfs", lit "add_sus_path", lit "/x"]) =
        [(CMD_SUSFS_ADD_SUS_PATH, .sus_path info)] ∧
      info.target_ino = 100 ∧ cstr info.target_pathname = lit "/x" := by
  obtain ⟨info, h, h1, _, _, h2, _⟩ :=
    add_sus_path_record sample_world (lit "ksu_susfs") (lit "/x") sample_stat rfl (by decide)
  exact ⟨info, h, h1, by rw [h2]; decide⟩

/-- C12: `set_uname` copies each argument with `strncpy` into a record that is
not initialised.  For arguments shorter than 64 bytes the release and version
fields hold the arguments as terminated strings, `default` like any other
(first two parts).  For a release argument of 64 bytes the 64 bytes are copied
and the 65th byte of the field keeps what the stack held, so the field holds
no terminated string of at most 64 bytes (last part). -/
theorem set_uname_fields :
    (∀ (w : World) (prog release version : List Nat), w.uid = 0 →
      (cstr release).length < 64 → (cstr version).length < 64 →
      ∃ info, submissions (main w [prog, lit "set_uname", release, version]) =
          [(CMD_SUSFS_SET_UNAME, .uname info)] ∧
        cstr info.release = cstr release ∧ cstr info.version = cstr version) ∧
    (submitted_uname (main sample_world
        [lit "ksu_susfs", lit "set_uname", lit "5.10.0-test", lit "default"])).map
      (fun info => (cstr info.release, cstr info.version)) =
        some (lit "5.10.0-test", lit "default") ∧
    (submitted_uname (main sample_world
        [lit "ksu_susfs", lit "set_uname", List.replicate 64 97, lit "default"])).map
      (fun info => (info.release.length, cstr info.release)) =
        some (65, List.replicate 64 97 ++ [170]) := by
  refine ⟨?_, by decide, by decide⟩
  intro w prog release version hroot hr hv
  rw [main_set_uname w [prog, lit "set_uname", release, version] hroot rfl
    (cstr_arg_one _ _ _ (by decide))]
  simp only [set_uname, arg, List.getD_cons_succ, List.getD_cons_zero,
    submissions_not_supported]
  have hlen : (uninit_bytes w (NEW_UTS_LEN + 1)).length = NEW_UTS_LEN + 1 := by
    simp [uninit_bytes]
  exact ⟨_, rfl, cstr_strncpy_short _ release _ hlen hr, cstr_strncpy_short _ version _ hlen hv⟩

theorem set_uname_fields_witness :
    ∃ info, submissions (main sample_world
        [lit "ksu_susfs", lit "set_uname", lit "5.10.0-test", lit "default"]) =
        [(CMD_SUSFS_SET_UNAME, .uname info)] ∧
      cstr info.release = cstr (lit "5.10.0-test") ∧ cstr info.version = cstr (lit "default") :=
  set_uname_fields.1 sample_world (lit "ksu_susfs") (lit "5.10.0-test") (lit "default") rfl
    (by decide) (by decide)

/-- C17: when `stat` fails, five of the six commands print a diagnostic with
the path argument in it and return 1, but `add_sus_path` prints
`info.target_pathname`, which is still all zero bytes at that point: its
diagnostic is the same text for every path and does not name the path. -/
theorem stat_failure_diagnostic (w : World) (prog path : List Nat) (rest : List (List Nat))
    (hroot : w.uid = 0) (hstat : w.stat (cstr path) = none) :
    main w [prog, lit "add_sus_path", path] =
      ⟨1, [.stat (cstr path), .print (lit "ksu_susfs: not found, skip adding its ino\n")]⟩ ∧
    (∀ name ∈ ["add_sus_mount", "add_sus_kstat", "update_sus_kstat",
        "update_sus_kstat_full_clone"],
      main w [prog, lit name, path] =
        ⟨1, [.stat (cstr path), .print (lit "ksu_susfs:[-] Failed to get stat from path: '" ++
          cstr path ++ lit "'\n")]⟩) ∧
    (rest.length = 12 →
      main w (prog :: lit "add_sus_kstat_statically" :: path :: rest) =
        ⟨1, [.stat (cstr path), .print (lit "ksu_susfs:[-] Failed to get stat from path: '" ++
          cstr path ++ lit "'\n")]⟩) := by
  have hmsg : failed_stat_msg path =
      .print (lit "ksu_susfs:[-] Failed to get stat from path: '" ++ cstr path ++ lit "'\n") := by
    simp only [failed_stat_msg, log, TAG, ← List.append_assoc]
    rfl
  refine ⟨?_, ?_, ?_⟩
  · rw [main_add_sus_path w [prog, lit "add_sus_path", path] hroot rfl
      (cstr_arg_one _ _ _ (by decide))]
    simp only [add_sus_path, arg, List.getD_cons_succ, List.getD_cons_zero, get_file_stat,
      hstat]
    have : log (cstr (List.replicate SUSFS_MAX_LEN_PATHNAME 0) ++
        lit " not found, skip adding its ino\n") =
        .print (lit "ksu_susfs: not found, skip adding its ino\n") := by decide
    rw [this]
  · intro name hname
    simp only [List.mem_cons, List.mem_singleton, List.not_mem_nil, or_false] at hname
    rcases hname with h | h | h | h <;> subst h
    · rw [main_add_sus_mount w [prog, lit "add_sus_mount", path] hroot rfl
        (cstr_arg_one _ _ _ (by decide))]
      simp only [add_sus_mount, arg, List.getD_cons_succ, List.getD_cons_zero, get_file_stat,
        hstat, hmsg]
    · rw [main_add_sus_kstat w [prog, lit "add_sus_kstat", path] hroot rfl
        (cstr_arg_one _ _ _ (by decide))]
      simp only [add_sus_kstat, arg, List.getD_cons_succ, List.getD_cons_zero, get_file_stat,
        hstat, hmsg]
    · rw [main_update_sus_kstat w [prog, lit "update_sus_kstat", path] hroot rfl
        (cstr_arg_one _ _ _ (by decide))]
      simp only [update_sus_kstat, arg, List.getD_cons_succ, List.getD_cons_zero,
        get_file_stat, hstat, hmsg]
    · rw [main_update_sus_kstat_full_clone w [prog, lit "update_sus_kstat_full_clone", path]
        hroot rfl (cstr_arg_one _ _ _ (by decide))]
      simp only [update_sus_kstat_full_clone, arg, List.getD_cons_succ, List.getD_cons_zero,
        get_file_stat, hstat, hmsg]
  · intro hlen
    rw [main_add_sus_kstat_statically w (prog :: lit "add_sus_kstat_statically" :: path :: rest)
      hroot (by simp [hlen]) (cstr_arg_one _ _ _ (by decide))]
    simp only [add_sus_kstat_statically, arg, List.getD_cons_succ, List.getD_cons_zero,
      get_file_stat, hstat, hmsg]

theorem stat_failure_diagnostic_witness :
    main sample_world [lit "ksu_susfs", lit "add_sus_path", lit "/nonexistent"] =
      ⟨1, [.stat (cstr (lit "/nonexistent")),
        .print (lit "ksu_susfs: not found, skip adding its ino\n")]⟩ ∧
    ¬ (lit "/nonexistent" <:+: lit "ksu_susfs: not found, skip adding its ino\n") :=
  ⟨(stat_failure_diagnostic sample_world (lit "ksu_susfs") (lit "/nonexistent") [] rfl
    (by decide)).1, by decide⟩

theorem strncpy_take (dst src : List Nat) (n : Nat) (hdst : dst.length = n + 1) :
    (strncpy dst src n).take n =
      (cstr src).take n ++ List.replicate (n - (cstr src).length) 0 := by
  rw [strncpy_buffer dst src n hdst]
  apply List.take_left'
  simp only [List.length_append, List.length_take, List.length_replicate]
  omega

/-- C19: an `add_try_umount` that reaches the submission submits the buffer
`strncpy` filled from the path argument, never the canonical path `realpath`
returned: its first 255 bytes are the argument cut to 255 bytes and padded
with zero bytes, and for an argument shorter than 255 bytes its string is the
argument (first part).  The record is not initialised, so for an argument of
255 bytes the last byte of the buffer keeps what the stack held: in
`long_path_world` the argument `long_path` names no file, `realpath` is handed
the argument followed by the stack byte, which names a file, and the string in
the submitted record is that other path, 256 bytes without a terminator in the
field (last part). -/
theorem add_try_umount_pathname :
    (∀ (w : World) (prog path mode p : List Nat), w.uid = 0 →
      realpath_result w (string_at w (strncpy (uninit_bytes w SUSFS_MAX_LEN_PATHNAME)
        path (SUSFS_MAX_LEN_PATHNAME - 1)) SUSFS_MAX_LEN_PATHNAME) = some p →
      cstr p ∉ protected_roots → (cstr mode = lit "0" ∨ cstr mode = lit "1") →
      ∃ info, submissions (main w [prog, lit "add_try_umount", path, mode]) =
          [(CMD_SUSFS_ADD_TRY_UMOUNT, .try_umount info)] ∧
        info.target_pathname = strncpy (uninit_bytes w 256) path 255 ∧
        info.target_pathname.take 255 =
          (cstr path).take 255 ++ List.replicate (255 - (cstr path).length) 0 ∧
        ((cstr path).length < 255 → cstr info.target_pathname = cstr path)) ∧
    (long_path.length = 255 ∧
      realpath_result long_path_world long_path = none ∧
      Event.realpath (long_path ++ [170]) ∈ (main long_path_world
        [lit "ksu_susfs", lit "add_try_umount", long_path, lit "0"]).trace ∧
      (submitted_try_umount (main long_path_world
          [lit "ksu_susfs", lit "add_try_umount", long_path, lit "0"])).map
        (fun info => (info.target_pathname.length, cstr info.target_pathname)) =
          some (256, long_path ++ [170])) := by
  refine ⟨?_, by decide⟩
  intro w prog path mode p hroot hreal hp hmode
  rw [main_add_try_umount w [prog, lit "add_try_umount", path, mode] hroot rfl
    (cstr_arg_one _ _ _ (by decide))]
  have hm : ¬ (cstr mode ≠ lit "0" ∧ cstr mode ≠ lit "1") := by
    rintro ⟨h0, h1⟩
    exact hmode.elim h0 h1
  have he : deref (strtol mode).2 = 0 := by
    rcases hmode with h0 | h1
    · exact (strtol_digit mode 48 (by decide) h0).2
    · exact (strtol_digit mode 49 (by decide) h1).2
  simp only [add_try_umount, arg, List.getD_cons_succ, List.getD_cons_zero, hreal,
    protected_iff, mode_token_iff, if_neg hp, if_neg hm, he, ne_eq, not_true_eq_false,
    if_false, submissions_not_supported]
  have hlen : (uninit_bytes w 256).length = 255 + 1 := by simp [uninit_bytes]
  exact ⟨_, rfl, rfl, strncpy_take _ path 255 hlen,
    fun hs => cstr_strncpy_short _ path 255 hlen hs⟩

theorem add_try_umount_pathname_witness :
    ∃ info, submissions (main { sample_world with realpath := fun _ => some (lit "/x") }
        [lit "ksu_susfs", lit "add_try_umount", lit "/x/../x", lit "1"]) =
          [(CMD_SUSFS_ADD_TRY_UMOUNT, .try_umount info)] ∧
      cstr info.target_pathname = lit "/x/../x" := by
  obtain ⟨info, h, _, _, h3⟩ :=
    add_try_umount_pathname.1 { sample_world with realpath := fun _ => some (lit "/x") }
      (lit "ksu_susfs") (lit "/x/../x") (lit "1") (lit "/x") rfl (by decide) (by decide)
      (Or.inr (by decide))
  exact ⟨info, h, by rw [h3 (by decide)]; decide⟩

/-! ## Lemmas on the order of validation and submission -/

theorem sov_of_no_submission (w : World) (r : Run) (h : submissions r = []) :
    submits_only_after_validation w r :=
  ⟨by simp [h], fun _ => h, fun _ _ _ => h, fun _ _ _ => h⟩

theorem sov_of_checks (w : World) (r : Run) (hlen : (submissions r).length ≤ 1)
    (hu : Event.usage ∉ r.trace) (hs : ∀ p, Event.stat p ∈ r.trace → w.stat p ≠ none)
    (hr : ∀ p, Event.realpath p ∈ r.trace →
      ∃ q, realpath_result w p = some q ∧ cstr q ∉ protected_roots) :
    submits_only_after_validation w r := by
  refine ⟨hlen, fun h => absurd h hu, fun p hp hn => absurd hn (hs p hp), ?_⟩
  intro p hp h
  obtain ⟨q, hq, hnp⟩ := hr p hp
  rcases h with h | ⟨q', hq', hp'⟩
  · rw [hq] at h
    exact absurd h (by simp)
  · rw [hq] at hq'
    cases hq'
    exact absurd hp' hnp

theorem mem_not_supported (x : Int) (cmd : Nat) (e : Event)
    (h : e ∈ PRT_MSG_IF_OPERATION_NOT_SUPPORTED x cmd) : ∃ t, e = .print t := by
  unfold PRT_MSG_IF_OPERATION_NOT_SUPPORTED at h
  split at h
  · simp only [List.mem_singleton] at h
    exact ⟨_, h⟩
  · simp at h

theorem follows_not_supported (x : Int) (cmd : Nat) :
    ∀ ev ∈ PRT_MSG_IF_OPERATION_NOT_SUPPORTED x cmd, follows_submission ev = true := by
  intro ev hev
  obtain ⟨t, ht⟩ := mem_not_supported _ _ _ hev
  rw [ht]
  rfl

theorem submissions_of_follows (e : Int) (post : List Event)
    (hpost : ∀ ev ∈ post, follows_submission ev = true) : submissions ⟨e, post⟩ = [] := by
  unfold submissions
  rw [List.filterMap_eq_nil_iff]
  intro ev hev
  have := hpost ev hev
  cases ev <;> simp_all [follows_submission]

/-- A run made of checks that succeeded, one submission, and then only
messages and local steps. -/
theorem sov_submit (w : World) (e : Int) (pre post : List Event) (o c : Nat) (a : Arg)
    (hpre : pre = [] ∨ (∃ p sb, pre = [.stat p] ∧ w.stat p = some sb) ∨
      (∃ p q, pre = [.realpath p] ∧ realpath_result w p = some q ∧
        cstr q ∉ protected_roots))
    (hpost : ∀ ev ∈ post, follows_submission ev = true) :
    submits_only_after_validation w ⟨e, pre ++ [.prctl o c a] ++ post⟩ := by
  have hsub : submissions ⟨e, pre ++ [.prctl o c a] ++ post⟩ = [(c, a)] := by
    have h1 := submissions_of_follows e post hpost
    unfold submissions at h1 ⊢
    simp only [List.filterMap_append, h1, List.append_nil]
    rcases hpre with h | ⟨p, sb, h, -⟩ | ⟨p, q, h, -⟩ <;> subst h <;> rfl
  have hnot : ∀ ev ∈ post, ev ≠ .usage ∧ (∀ p, ev ≠ .stat p) ∧ (∀ p, ev ≠ .realpath p) := by
    intro ev hev
    have := hpost ev hev
    refine ⟨?_, ?_, ?_⟩
    · rintro rfl
      simp [follows_submission] at this
    · rintro p rfl
      simp [follows_submission] at this
    · rintro p rfl
      simp [follows_submission] at this
  apply sov_of_checks
  · rw [hsub]
    simp
  · intro hu
    simp only [List.mem_append, List.mem_singleton, reduceCtorEq, or_false] at hu
    rcases hu with hu | hu
    · rcases hpre with h | ⟨p, sb, h, -⟩ | ⟨p, q, h, -⟩ <;> subst h <;> simp at hu
    · exact (hnot _ hu).1 rfl
  · intro p' hp'
    simp only [List.mem_append, List.mem_singleton, reduceCtorEq, or_false] at hp'
    rcases hp' with hp' | hp'
    · rcases hpre with h | ⟨p, sb, h, hs⟩ | ⟨p, q, h, -⟩ <;> subst h
      · simp at hp'
      · simp only [List.mem_singleton, Event.stat.injEq] at hp'
        rw [hp', hs]
        simp
      · simp at hp'
    · exact absurd rfl ((hnot _ hp').2.1 p')
  · intro p' hp'
    simp only [List.mem_append, List.mem_singleton, reduceCtorEq, or_false] at hp'
    rcases hp' with hp' | hp'
    · rcases hpre with h | ⟨p, sb, h, -⟩ | ⟨p, q, h, hq, hn⟩ <;> subst h
      · simp at hp'
      · simp at hp'
      · simp only [List.mem_singleton, Event.realpath.injEq] at hp'
        rw [hp']
        exact ⟨q, hq, hn⟩
    · exact absurd rfl ((hnot _ hp').2.2 p')
theorem sov_add_sus_path (w : World) (argv : List (List Nat)) :
    submits_only_after_validation w (add_sus_path w argv) := by
  simp only [add_sus_path, get_file_stat]
  split
  · exact sov_of_no_submission _ _ rfl
  · rename_i sb h
    exact sov_submit w _ [.stat _] _ _ _ _ (Or.inr (Or.inl ⟨_, _, rfl, h⟩))
      (follows_not_supported _ _)

theorem sov_add_sus_mount (w : World) (argv : List (List Nat)) :
    submits_only_after_validation w (add_sus_mount w argv) := by
  simp only [add_sus_mount, get_file_stat]
  split
  · exact sov_of_no_submission _ _ rfl
  · rename_i sb h
    exact sov_submit w _ [.stat _] _ _ _ _ (Or.inr (Or.inl ⟨_, _, rfl, h⟩))
      (follows_not_supported _ _)

theorem sov_add_sus_kstat_statically (w : World) (argv : List (List Nat)) :
    submits_only_after_validation w (add_sus_kstat_statically w argv) := by
  simp only [add_sus_kstat_statically, get_file_stat]
  split
  · exact sov_of_no_submission _ _ rfl
  · rename_i sb h
    split
    · exact sov_of_no_submission _ _ rfl
    · exact sov_submit w _ [.stat _] _ _ _ _ (Or.inr (Or.inl ⟨_, _, rfl, h⟩))
        (follows_not_supported _ _)

theorem sov_add_sus_kstat (w : World) (argv : List (List Nat)) :
    submits_only_after_validation w (add_sus_kstat w argv) := by
  simp only [add_sus_kstat, get_file_stat]
  split
  · exact sov_of_no_submission _ _ rfl
  · rename_i sb h
    exact sov_submit w _ [.stat _] _ _ _ _ (Or.inr (Or.inl ⟨_, _, rfl, h⟩))
      (follows_not_supported _ _)

theorem sov_update_sus_kstat (w : World) (argv : List (List Nat)) :
    submits_only_after_validation w (update_sus_kstat w argv) := by
  simp only [update_sus_kstat, get_file_stat]
  split
  · exact sov_of_no_submission _ _ rfl
  · rename_i sb h
    exact sov_submit w _ [.stat _] _ _ _ _ (Or.inr (Or.inl ⟨_, _, rfl, h⟩))
      (follows_not_supported _ _)

theorem sov_update_sus_kstat_full_clone (w : World) (argv : List (List Nat)) :
    submits_only_after_validation w (update_sus_kstat_full_clone w argv) := by
  simp only [update_sus_kstat_full_clone, get_file_stat]
  split
  · exact sov_of_no_submission _ _ rfl
  · rename_i sb h
    exact sov_submit w _ [.stat _] _ _ _ _ (Or.inr (Or.inl ⟨_, _, rfl, h⟩))
      (follows_not_supported _ _)

theorem sov_add_try_umount (w : World) (argv : List (List Nat)) :
    submits_only_after_validation w (add_try_umount w argv) := by
  simp only [add_try_umount, protected_iff]
  split
  · exact sov_of_no_submission _ _ rfl
  · rename_i q h
    split
    · exact sov_of_no_submission _ _ rfl
    · rename_i hq
      split
      · exact sov_of_no_submission _ _ rfl
      · split
        · exact sov_of_no_submission _ _ rfl
        · exact sov_submit w _ [.realpath _] _ _ _ _
            (Or.inr (Or.inr ⟨_, q, rfl, h, hq⟩)) (follows_not_supported _ _)

theorem sov_set_uname (w : World) (argv : List (List Nat)) :
    submits_only_after_validation w (set_uname w argv) := by
  simp only [set_uname]
  exact sov_submit w _ [] _ _ _ _ (Or.inl rfl) (follows_not_supported _ _)

theorem sov_enable_log (w : World) (argv : List (List Nat)) :
    submits_only_after_validation w (enable_log w argv) := by
  simp only [enable_log]
  split
  · exact sov_of_no_submission _ _ rfl
  · exact sov_submit w _ [] _ _ _ _ (Or.inl rfl) (follows_not_supported _ _)

theorem follows_append (a b : List Event) (ha : ∀ ev ∈ a, follows_submission ev = true)
    (hb : ∀ ev ∈ b, follows_submission ev = true) :
    ∀ ev ∈ a ++ b, follows_submission ev = true := by
  intro ev hev
  rcases List.mem_append.mp hev with h | h
  · exact ha ev h
  · exact hb ev h

theorem sov_sus_su (w : World) (argv : List (List Nat)) (error : Int) :
    submits_only_after_validation w (sus_su w argv error) := by
  have hP := follows_not_supported
  simp only [sus_su]
  split
  · exact sov_of_no_submission _ _ rfl
  · split
    · split
      · exact sov_submit w _ [] _ _ _ _ (Or.inl rfl) (hP _ _)
      · split
        · refine sov_submit w _ [] _ _ _ _ (Or.inl rfl)
            (follows_append _ _ (follows_append _ _ (hP _ _) ?_) ?_) <;>
          simp [follows_submission, log]
        · split
          · refine sov_submit w _ [] _ _ _ _ (Or.inl rfl)
              (follows_append _ _ (follows_append _ _ (follows_append _ _ (hP _ _) ?_) ?_) ?_)
              <;>
            simp [follows_submission, log]
          · split
            · refine sov_submit w _ [] _ _ _ _ (Or.inl rfl)
                (follows_append _ _ (follows_append _ _ (follows_append _ _ (hP _ _) ?_) ?_)
                  ?_) <;>
              simp [follows_submission, log]
            · refine sov_submit w _ [] _ _ _ _ (Or.inl rfl)
                (follows_append _ _ (follows_append _ _ (follows_append _ _ (hP _ _) ?_) ?_)
                  ?_) <;>
              simp [follows_submission, log]
    · split
      · exact sov_submit w _ [] _ _ _ _ (Or.inl rfl) (hP _ _)
      · split <;>
        · refine sov_submit w _ [] _ _ _ _ (Or.inl rfl) (follows_append _ _ (hP _ _) ?_)
          simp [follows_submission, log]
/-- C13: for every argument vector and every world, a run of `main` makes at
most one submission, and none when the caller is not root, when the usage text
was printed, when the `stat` it made failed, or when the `realpath` it made
failed or gave a protected root. -/
theorem at_most_one_submission (w : World) (argv : List (List Nat)) :
    submits_only_after_validation w (main w argv) ∧
    (w.uid ≠ 0 → submissions (main w argv) = []) := by
  by_cases hroot : w.uid = 0
  · refine ⟨?_, fun h => absurd hroot h⟩
    have hm : main w argv = commands w argv := by
      simp only [main, pre_check, hroot, ne_eq, not_true_eq_false, if_false]
    rw [hm]
    simp only [commands]
    split
    · exact sov_add_sus_path w argv
    · split
      · exact sov_add_sus_mount w argv
      · split
        · exact sov_add_sus_kstat_statically w argv
        · split
          · exact sov_add_sus_kstat w argv
          · split
            · exact sov_update_sus_kstat w argv
            · split
              · exact sov_update_sus_kstat_full_clone w argv
              · split
                · exact sov_add_try_umount w argv
                · split
                  · exact sov_set_uname w argv
                  · split
                    · exact sov_enable_log w argv
                    · split
                      · exact sov_sus_su w argv (-1)
                      · exact sov_of_no_submission _ _ rfl
  · have hm : main w argv = ⟨1, [log (lit "[-] Must run as root\n")]⟩ := by
      simp only [main, pre_check, ne_eq, hroot, not_false_eq_true, if_true]
    rw [hm]
    exact ⟨sov_of_no_submission _ _ rfl, fun _ => rfl⟩

theorem at_most_one_submission_witness :
    submissions (main { sample_world with uid := 2000 }
      [lit "ksu_susfs", lit "add_sus_path", lit "/x"]) = [] :=
  (at_most_one_submission { sample_world with uid := 2000 }
    [lit "ksu_susfs", lit "add_sus_path", lit "/x"]).2 (by decide)

/-! ## The `sus_su` workflow on the file system -/

end Susfs
